import Mathlib

/-!
Verification of the customer-language-miner core: a shallow embedding of the
analysis orchestrator (claude_analyzer.py), the corpus builder (main.py) and
the report assembler / renderer (message_map.py), with theorems settling the
frozen specification claims.

Python values flowing through the pipeline are modelled by `JsonV`; Python
dicts with string keys are association lists (`PyDict`); fallible Python code
(code that can raise) returns `Except Unit`.
-/

namespace Miner

/-- A Python/JSON value: None, bool, int, str, list, dict.  Numbers are
modelled as integers (every numeric literal the pipeline's claims touch is an
integer index or count; floats are outside the modelled fragment). -/
inductive JsonV where
  | null : JsonV
  | bool (b : Bool) : JsonV
  | num (n : Int) : JsonV
  | str (s : String) : JsonV
  | arr (xs : List JsonV) : JsonV
  | obj (fields : List (String × JsonV)) : JsonV

mutual

/-- Decidable equality of `JsonV` values (mutual with lists and field lists,
so that it is structurally recursive and kernel-computable). -/
def decEqV : (a b : JsonV) → Decidable (a = b)
  | .null, .null => isTrue rfl
  | .null, .bool _ => isFalse (fun h => JsonV.noConfusion h)
  | .null, .num _ => isFalse (fun h => JsonV.noConfusion h)
  | .null, .str _ => isFalse (fun h => JsonV.noConfusion h)
  | .null, .arr _ => isFalse (fun h => JsonV.noConfusion h)
  | .null, .obj _ => isFalse (fun h => JsonV.noConfusion h)
  | .bool _, .null => isFalse (fun h => JsonV.noConfusion h)
  | .bool x, .bool y =>
    if h : x = y then isTrue (by rw [h]) else isFalse (fun c => h (by injection c))
  | .bool _, .num _ => isFalse (fun h => JsonV.noConfusion h)
  | .bool _, .str _ => isFalse (fun h => JsonV.noConfusion h)
  | .bool _, .arr _ => isFalse (fun h => JsonV.noConfusion h)
  | .bool _, .obj _ => isFalse (fun h => JsonV.noConfusion h)
  | .num _, .null => isFalse (fun h => JsonV.noConfusion h)
  | .num _, .bool _ => isFalse (fun h => JsonV.noConfusion h)
  | .num x, .num y =>
    if h : x = y then isTrue (by rw [h]) else isFalse (fun c => h (by injection c))
  | .num _, .str _ => isFalse (fun h => JsonV.noConfusion h)
  | .num _, .arr _ => isFalse (fun h => JsonV.noConfusion h)
  | .num _, .obj _ => isFalse (fun h => JsonV.noConfusion h)
  | .str _, .null => isFalse (fun h => JsonV.noConfusion h)
  | .str _, .bool _ => isFalse (fun h => JsonV.noConfusion h)
  | .str _, .num _ => isFalse (fun h => JsonV.noConfusion h)
  | .str x, .str y =>
    if h : x = y then isTrue (by rw [h]) else isFalse (fun c => h (by injection c))
  | .str _, .arr _ => isFalse (fun h => JsonV.noConfusion h)
  | .str _, .obj _ => isFalse (fun h => JsonV.noConfusion h)
  | .arr _, .null => isFalse (fun h => JsonV.noConfusion h)
  | .arr _, .bool _ => isFalse (fun h => JsonV.noConfusion h)
  | .arr _, .num _ => isFalse (fun h => JsonV.noConfusion h)
  | .arr _, .str _ => isFalse (fun h => JsonV.noConfusion h)
  | .arr xs, .arr ys =>
    match decEqVL xs ys with
    | isTrue h => isTrue (by rw [h])
    | isFalse h => isFalse (fun c => h (by injection c))
  | .arr _, .obj _ => isFalse (fun h => JsonV.noConfusion h)
  | .obj _, .null => isFalse (fun h => JsonV.noConfusion h)
  | .obj _, .bool _ => isFalse (fun h => JsonV.noConfusion h)
  | .obj _, .num _ => isFalse (fun h => JsonV.noConfusion h)
  | .obj _, .str _ => isFalse (fun h => JsonV.noConfusion h)
  | .obj _, .arr _ => isFalse (fun h => JsonV.noConfusion h)
  | .obj fs, .obj gs =>
    match decEqVF fs gs with
    | isTrue h => isTrue (by rw [h])
    | isFalse h => isFalse (fun c => h (by injection c))

/-- Decidable equality of `JsonV` lists. -/
def decEqVL : (xs ys : List JsonV) → Decidable (xs = ys)
  | [], [] => isTrue rfl
  | [], _ :: _ => isFalse (fun h => List.noConfusion h)
  | _ :: _, [] => isFalse (fun h => List.noConfusion h)
  | x :: xs, y :: ys =>
    match decEqV x y, decEqVL xs ys with
    | isTrue h1, isTrue h2 => isTrue (by rw [h1, h2])
    | isFalse h1, _ => isFalse (fun c => h1 (by injection c))
    | isTrue _, isFalse h2 => isFalse (fun c => h2 (by injection c))

/-- Decidable equality of `JsonV` field lists. -/
def decEqVF : (fs gs : List (String × JsonV)) → Decidable (fs = gs)
  | [], [] => isTrue rfl
  | [], _ :: _ => isFalse (fun h => List.noConfusion h)
  | _ :: _, [] => isFalse (fun h => List.noConfusion h)
  | (k1, v1) :: fs, (k2, v2) :: gs =>
    match instDecidableEqString k1 k2, decEqV v1 v2, decEqVF fs gs with
    | isTrue h0, isTrue h1, isTrue h2 => isTrue (by rw [h0, h1, h2])
    | isFalse h0, _, _ =>
      isFalse (fun c => by injection c with c1 c2; exact h0 (congrArg Prod.fst c1))
    | isTrue _, isFalse h1, _ =>
      isFalse (fun c => by injection c with c1 c2; exact h1 (congrArg Prod.snd c1))
    | isTrue _, isTrue _, isFalse h2 => isFalse (fun c => h2 (by injection c))

end

instance : DecidableEq JsonV := decEqV

/-- A Python dict with string keys, as produced by `json.loads` on an object
and as consumed by the report assembler. -/
abbrev PyDict := List (String × JsonV)

/-- First-match association lookup; Python dicts cannot hold duplicate keys,
so on parser output this is exact dict lookup. -/
def lookupFirst (fs : PyDict) (k : String) : Option JsonV :=
  match fs with
  | [] => none
  | (k2, v) :: rest => if k2 = k then some v else lookupFirst rest k

/-- Python `d.get(k, default)` on a dict known to be a dict. -/
def getD (fs : PyDict) (k : String) (d : JsonV) : JsonV :=
  (lookupFirst fs k).getD d

/-- Python truthiness of a value. -/
def pyTruthy : JsonV → Bool
  | .null => false
  | .bool b => b
  | .num n => decide (n ≠ 0)
  | .str s => decide (s ≠ "")
  | .arr xs => !xs.isEmpty
  | .obj fs => !fs.isEmpty

/-! ### A model of `json.loads`

The analyzer parses LLM responses with Python's `json.loads`.  We model it by
an executable recursive-descent parser over the JSON fragment the pipeline's
contract uses: objects, arrays, strings without escape sequences, integer
numbers, booleans and null.  Parsing fails (like `json.loads` raising
`JSONDecodeError`) on any other input, including trailing garbage. -/

def isWsChar (c : Char) : Bool := c = ' ' || c = '\n' || c = '\t' || c = '\r'

def skipWs : List Char → List Char
  | [] => []
  | c :: cs => if isWsChar c then skipWs cs else c :: cs

/-- Body of a JSON string literal after the opening quote: plain characters up
to the closing quote; escape sequences are outside the modelled fragment. -/
def parseStrBody : List Char → Option (String × List Char)
  | [] => none
  | c :: cs =>
    if c = '"' then some ("", cs)
    else if c = '\\' then none
    else
      match parseStrBody cs with
      | some (s, rest) => some (String.mk (c :: s.data), rest)
      | none => none

def parseNatNum (cs : List Char) : Option (Nat × List Char) :=
  let ds := cs.takeWhile Char.isDigit
  if ds.isEmpty then none
  else some (ds.foldl (fun n c => 10 * n + (c.toNat - 48)) 0, cs.dropWhile Char.isDigit)

def stripLit : List Char → List Char → Option (List Char)
  | [], cs => some cs
  | l :: ls, c :: cs => if c = l then stripLit ls cs else none
  | _ :: _, [] => none

def lbraceC : Char := Char.ofNat 123
def rbraceC : Char := Char.ofNat 125

def removeKey (fs : PyDict) (k : String) : PyDict := fs.filter (fun p => p.1 ≠ k)

/-- Merge one parsed key/value pair with the following pairs of the same
object, with Python dict duplicate-key semantics: position of the first
occurrence, value of the last. -/
def consKey (k : String) (v : JsonV) (fs : PyDict) : PyDict :=
  match lookupFirst fs k with
  | some v2 => (k, v2) :: removeKey fs k
  | none => (k, v) :: fs

mutual

def parseVal (fuel : Nat) (cs : List Char) : Option (JsonV × List Char) :=
  match fuel with
  | 0 => none
  | fuel + 1 =>
    match skipWs cs with
    | [] => none
    | c :: rest =>
      if c = '"' then
        match parseStrBody rest with
        | some (s, r) => some (.str s, r)
        | none => none
      else if c = lbraceC then
        match skipWs rest with
        | c2 :: r2 =>
          if c2 = rbraceC then some (.obj [], r2)
          else
            match parseObjElems fuel (c2 :: r2) with
            | some (fields, r) => some (.obj fields, r)
            | none => none
        | [] => none
      else if c = '[' then
        match skipWs rest with
        | c2 :: r2 =>
          if c2 = ']' then some (.arr [], r2)
          else
            match parseArrElems fuel (c2 :: r2) with
            | some (vs, r) => some (.arr vs, r)
            | none => none
        | [] => none
      else if c = 't' then
        match stripLit ['r', 'u', 'e'] rest with
        | some r => some (.bool true, r)
        | none => none
      else if c = 'f' then
        match stripLit ['a', 'l', 's', 'e'] rest with
        | some r => some (.bool false, r)
        | none => none
      else if c = 'n' then
        match stripLit ['u', 'l', 'l'] rest with
        | some r => some (.null, r)
        | none => none
      else if c = '-' then
        match parseNatNum rest with
        | some (n, r) => some (.num (-(n : Int)), r)
        | none => none
      else if c.isDigit then
        match parseNatNum (c :: rest) with
        | some (n, r) => some (.num (n : Int), r)
        | none => none
      else none

def parseArrElems (fuel : Nat) (cs : List Char) : Option (List JsonV × List Char) :=
  match fuel with
  | 0 => none
  | fuel + 1 =>
    match parseVal fuel cs with
    | none => none
    | some (v, r) =>
      match skipWs r with
      | ']' :: r2 => some ([v], r2)
      | ',' :: r2 =>
        match parseArrElems fuel r2 with
        | some (vs, r3) => some (v :: vs, r3)
        | none => none
      | _ => none

def parseObjElems (fuel : Nat) (cs : List Char) : Option (PyDict × List Char) :=
  match fuel with
  | 0 => none
  | fuel + 1 =>
    match skipWs cs with
    | [] => none
    | c :: rest =>
      if c = '"' then
        match parseStrBody rest with
        | some (k, r) =>
          match skipWs r with
          | ':' :: r2 =>
            match parseVal fuel r2 with
            | some (v, r3) =>
              match skipWs r3 with
              | c4 :: r4 =>
                if c4 = rbraceC then some ([(k, v)], r4)
                else if c4 = ',' then
                  match parseObjElems fuel r4 with
                  | some (fields, r5) => some (consKey k v fields, r5)
                  | none => none
                else none
              | [] => none
            | none => none
          | _ => none
        | none => none
      else none

end

/-- Model of `json.loads`: parse one value, require only whitespace after it.
The fuel `2 * length + 4` dominates the recursion depth, since every nested
call consumes at least one input character. -/
def json_loads (s : String) : Option JsonV :=
  match parseVal (2 * s.length + 4) s.data with
  | some (v, rest) => if (skipWs rest).isEmpty then some v else none
  | none => none

/-! ### Python dict/sequence operations that can raise -/

/-- Python `v.get(k, d)`: `AttributeError` unless `v` is a dict. -/
def pyGetE (v : JsonV) (k : String) (d : JsonV) : Except Unit JsonV :=
  match v with
  | .obj fs => .ok (getD fs k d)
  | _ => .error ()

/-- Python `for x in v`: lists yield elements, strings yield one-character
strings, dicts yield their keys; other values raise `TypeError`. -/
def pyIterE : JsonV → Except Unit (List JsonV)
  | .arr xs => .ok xs
  | .str s => .ok (s.data.map (fun c => .str (String.singleton c)))
  | .obj fs => .ok (fs.map (fun kv => .str kv.1))
  | _ => .error ()

/-- Python `v[k]` for a string key: `KeyError` when missing, `TypeError` when
`v` is not a dict. -/
def pySubscript (v : JsonV) (k : String) : Except Unit JsonV :=
  match v with
  | .obj fs =>
    match lookupFirst fs k with
    | some x => .ok x
    | none => .error ()
  | _ => .error ()

/-- Python `v[0]`: first element of a list or string; raises otherwise
(`IndexError` on empty, `KeyError`/`TypeError` on dicts and scalars). -/
def pyIndex0 : JsonV → Except Unit JsonV
  | .arr (x :: _) => .ok x
  | .str s =>
    match s.data with
    | c :: _ => .ok (.str (String.singleton c))
    | [] => .error ()
  | _ => .error ()

/-- Python `len(v)`: defined for lists, strings and dicts. -/
def pyLen : JsonV → Except Unit Nat
  | .arr xs => .ok xs.length
  | .str s => .ok s.length
  | .obj fs => .ok fs.length
  | _ => .error ()

/-! ### Analysis orchestrator (claude_analyzer.py)

Each pass performs exactly one LLM call; its outcome is the `Except String
String` argument (`.ok` = the response text of the first content block,
`.error` = the exception message of a transport/API failure).  The pass
functions are total: no exception escapes them. -/

def analysis_prompt_head : String :=
  "You are an expert copywriter and customer research analyst. Analyze the following customer language samples to extract insights for advertising and marketing.\n\n"

def analysis_prompt_mid : String :=
  "\n\nCUSTOMER LANGUAGE SAMPLES:\n"

def analysis_prompt_tail : String :=
  "\n\nPlease analyze these samples and provide a comprehensive JSON response with the following structure:\n\n\x7b\n  \"emotional_patterns\": [\n    \x7b\n      \"emotion\": \"name of emotion (e.g., frustration, hope, fear, desire)\",\n      \"frequency\": \"high/medium/low\",\n      \"example_quotes\": [\"quote 1\", \"quote 2\", \"quote 3\"],\n      \"trigger_words\": [\"word1\", \"word2\"],\n      \"advertising_angle\": \"how to use this emotion in ads\"\n    \x7d\n  ],\n  \"pain_points\": [\n    \x7b\n      \"pain_point\": \"description of the problem\",\n      \"severity\": \"critical/major/minor\",\n      \"frequency_mentioned\": \"percentage or count\",\n      \"customer_quotes\": [\"quote 1\", \"quote 2\"],\n      \"before_state\": \"how customers describe life before solution\",\n      \"desired_outcome\": \"what they want instead\"\n    \x7d\n  ],\n  \"desire_triggers\": [\n    \x7b\n      \"desire\": \"what customers want to achieve/become\",\n      \"intensity\": \"high/medium/low\",\n      \"language_patterns\": [\"pattern 1\", \"pattern 2\"],\n      \"example_quotes\": [\"quote 1\", \"quote 2\"],\n      \"aspirational_identity\": \"who they want to be\"\n    \x7d\n  ],\n  \"awareness_stages\": \x7b\n    \"unaware\": \x7b\n      \"indicators\": [\"phrases that show no awareness of problem\"],\n      \"quotes\": [\"example quotes\"]\n    \x7d,\n    \"problem_aware\": \x7b\n      \"indicators\": [\"phrases showing they know the problem\"],\n      \"quotes\": [\"example quotes\"]\n    \x7d,\n    \"solution_aware\": \x7b\n      \"indicators\": [\"phrases showing they know solutions exist\"],\n      \"quotes\": [\"example quotes\"]\n    \x7d,\n    \"product_aware\": \x7b\n      \"indicators\": [\"phrases showing they know specific products\"],\n      \"quotes\": [\"example quotes\"]\n    \x7d,\n    \"most_aware\": \x7b\n      \"indicators\": [\"phrases from current/past customers\"],\n      \"quotes\": [\"example quotes\"]\n    \x7d\n  \x7d,\n  \"language_patterns\": \x7b\n    \"commonly_used_phrases\": [\"phrase 1\", \"phrase 2\"],\n    \"metaphors_analogies\": [\"metaphor 1\", \"metaphor 2\"],\n    \"objections\": [\"objection 1\", \"objection 2\"],\n    \"questions_asked\": [\"question 1\", \"question 2\"],\n    \"vocabulary_level\": \"simple/moderate/technical\",\n    \"tone\": \"casual/professional/emotional\"\n  \x7d,\n  \"key_insights\": [\n    \"insight 1\",\n    \"insight 2\",\n    \"insight 3\"\n  ]\n\x7d\n\nFocus on extracting EXACT phrases and quotes that can be used directly in ad copy. Prioritize emotional, vivid language over generic descriptions."

/-- `ClaudeAnalyzer._build_analysis_prompt`: join the first 100 texts with the
separator and embed them in the fixed instruction template (with the optional
context injection). -/
def build_analysis_prompt (texts : List String) (context : String) : String :=
  let combined_texts := String.intercalate "\n\n---\n\n" (texts.take 100)
  analysis_prompt_head ++
    (if context ≠ "" then "PRODUCT/CATEGORY CONTEXT: " ++ context else "") ++
    analysis_prompt_mid ++ combined_texts ++ analysis_prompt_tail

/-- `ClaudeAnalyzer.analyze_batch`, response handling: a transport/API failure
is caught and returned as the `error` dict; response text that fails
`json.loads` is wrapped as `raw_analysis`; parsed JSON is returned as-is. -/
def analyze_batch (callResult : Except String String) : JsonV :=
  match callResult with
  | .error e => .obj [("error", .str e)]
  | .ok response_text =>
    match json_loads response_text with
    | some analysis => analysis
    | none => .obj [("raw_analysis", .str response_text)]

/-- `ClaudeAnalyzer.generate_ad_copy_framework`, response handling (the prompt
is a pure function of the serialized analysis and does not influence the
result shape): same three-way contract with the `raw_framework` wrapper. -/
def generate_ad_copy_framework (callResult : Except String String) : JsonV :=
  match callResult with
  | .error e => .obj [("error", .str e)]
  | .ok response_text =>
    match json_loads response_text with
    | some ad_framework => ad_framework
    | none => .obj [("raw_framework", .str response_text)]

/-! ### Awareness categorization pass (`categorize_by_awareness`) -/

def awareness_stage_keys : List String :=
  ["unaware", "problem_aware", "solution_aware", "product_aware", "most_aware"]

/-- The initial `categorized` dict with the five fixed stage keys. -/
def catInit : List (String × List PyDict) :=
  [("unaware", []), ("problem_aware", []), ("solution_aware", []),
   ("product_aware", []), ("most_aware", [])]

def catAppend (acc : List (String × List PyDict)) (s : String) (x : PyDict) :
    List (String × List PyDict) :=
  acc.map (fun p => if p.1 = s then (p.1, p.2 ++ [x]) else p)

/-- The integer value Python uses when comparing `idx < len(data)`: ints and
bools compare numerically, all other response values raise `TypeError`. -/
def pyIntOfIdx : JsonV → Except Unit Int
  | .num n => .ok n
  | .bool b => .ok (if b then 1 else 0)
  | _ => .error ()

/-- Python `data[n]` on a list: non-negative indices address from the front,
negative indices from the back, `IndexError` outside `[-len, len)`. -/
def pyListIndex (data : List PyDict) (n : Int) : Except Unit PyDict :=
  if 0 ≤ n then
    match data.get? n.toNat with
    | some x => .ok x
    | none => .error ()
  else
    let m := (data.length : Int) + n
    if 0 ≤ m then
      match data.get? m.toNat with
      | some x => .ok x
      | none => .error ()
    else .error ()

/-- One iteration of the redistribution loop of `categorize_by_awareness`:
read `item['text_index']` and `item['stage']`, and when `idx < len(data)`
and the stage is one of the five keys, append `data[idx]` to that bucket.
The `and` is short-circuiting, and an unhashable stage value raises in
`stage in categorized`. -/
def bucketStep (data : List PyDict) (acc : List (String × List PyDict)) (item : JsonV) :
    Except Unit (List (String × List PyDict)) := do
  let idxV ← pySubscript item "text_index"
  let stageV ← pySubscript item "stage"
  let n ← pyIntOfIdx idxV
  if n < (data.length : Int) then
    match stageV with
    | .str s =>
      if s ∈ awareness_stage_keys then do
        let x ← pyListIndex data n
        pure (catAppend acc s x)
      else pure acc
    | .arr _ => .error ()
    | .obj _ => .error ()
    | _ => pure acc
  else pure acc

def bucketAll (data : List PyDict) :
    List JsonV → List (String × List PyDict) → Except Unit (List (String × List PyDict))
  | [], acc => .ok acc
  | it :: its, acc => do
    let acc2 ← bucketStep data acc it
    bucketAll data its acc2

/-- `ClaudeAnalyzer.categorize_by_awareness`: collect up to 50 text values,
return `{}` when there are none; one LLM call (`callResult`); any exception —
transport failure, `json.loads` failure, a response without dict methods, a
non-iterable `categorized` value, or an error inside the loop — is caught by
the outer handler, which returns `{}`. -/
def categorize_by_awareness (data : List PyDict) (text_field : String)
    (callResult : Except String String) : List (String × List PyDict) :=
  let texts := (data.filterMap (fun item => lookupFirst item text_field)).take 50
  if texts.isEmpty then []
  else
    match callResult with
    | .error _ => []
    | .ok response_text =>
      match json_loads response_text with
      | none => []
      | some result =>
        match result with
        | .obj fs =>
          match pyIterE (getD fs "categorized" (.arr [])) with
          | .error _ => []
          | .ok elems =>
            match bucketAll data elems catInit with
            | .ok categorized => categorized
            | .error _ => []
        | _ => []

/-! ### Corpus builder (`main.analyze_data`, lines 107–121) -/

/-- The text units one source record contributes, in document order: its
`text` if truthy, its `title` if truthy, then the `text` field of each dict
element of `comments` and then of `replies` (one level; elements that are not
dicts or lack `text` are skipped; a present `text` is taken even when empty).
A `comments`/`replies` value that is not a list contributes nothing (in
Python a string or dict would iterate to non-dict elements; other scalars
would raise, which no claim exercises). -/
def record_texts (item : PyDict) : List JsonV :=
  (match lookupFirst item "text" with
   | some v => if pyTruthy v then [v] else []
   | none => []) ++
  (match lookupFirst item "title" with
   | some v => if pyTruthy v then [v] else []
   | none => []) ++
  (match lookupFirst item "comments" with
   | some (.arr cs) =>
     cs.filterMap (fun c => match c with | .obj cf => lookupFirst cf "text" | _ => none)
   | _ => []) ++
  (match lookupFirst item "replies" with
   | some (.arr rs) =>
     rs.filterMap (fun r => match r with | .obj rf => lookupFirst rf "text" | _ => none)
   | _ => [])

/-- The corpus builder: flatten all records' text units in record order. -/
def extract_texts (data : List PyDict) : List JsonV :=
  (data.map record_texts).flatten

/-- The value of the lookup of the children array `k` (`comments`/`replies`)
used by the spec-side corpus builder. -/
def childArr (fs : PyDict) (k : String) : List JsonV :=
  match lookupFirst fs k with
  | some (.arr xs) => xs
  | _ => []

mutual

/-- The corpus builder as the spec's §4.1 contract words it (stated for
comparison with `record_texts`): per record the body text if non-empty, the
title if non-empty and distinct from the body, then recursively the text of
each nested comment and each nested reply, in document order; empty or
missing text fields are skipped. -/
def specTexts : JsonV → List JsonV
  | .obj fs =>
    let bodyV := (lookupFirst fs "text").getD .null
    (if pyTruthy bodyV then [bodyV] else []) ++
    (match lookupFirst fs "title" with
     | some t => if pyTruthy t ∧ t ≠ bodyV then [t] else []
     | none => []) ++
    specTextsList (childArr fs "comments") ++
    specTextsList (childArr fs "replies")
  | _ => []
termination_by r => sizeOf r
decreasing_by
  all_goals
    (have key : ∀ (gs : PyDict) (k : String), sizeOf (childArr gs k) < 1 + sizeOf gs := by
      intro gs k
      induction gs with
      | nil => simp [childArr, lookupFirst]
      | cons p rest ih =>
        obtain ⟨k2, v⟩ := p
        by_cases h : k2 = k
        · subst h
          simp only [childArr, lookupFirst, if_pos rfl]
          cases v <;> simp
          all_goals omega
        · simp only [childArr, lookupFirst, if_neg h] at ih ⊢
          simp at ih ⊢
          omega)
  · simpa using key fs "comments"
  · simpa using key fs "replies"

def specTextsList : List JsonV → List JsonV
  | [] => []
  | x :: xs => specTexts x ++ specTextsList xs
termination_by l => sizeOf l
decreasing_by
  all_goals simp
  all_goals omega

end

/-- The spec-side corpus builder over a record list. -/
def spec_corpus (data : List PyDict) : List JsonV :=
  (data.map (fun fs => specTexts (.obj fs))).flatten

/-! ### Report assembler (message_map.py) -/

/-- The conditional expression `xs[0][k] if xs else "N/A"` of
`_generate_summary`: it raises `KeyError`/`TypeError` when the sequence is
truthy but its first element is missing the key or is not a dict, and the
assembler does not catch that. -/
def topFieldOf (xs : JsonV) (k : String) : Except Unit JsonV :=
  if pyTruthy xs then do
    let x ← pyIndex0 xs
    pySubscript x k
  else pure (.str "N/A")

/-- `MessageMapGenerator._generate_summary`: derive the executive summary
from the three sequences read with empty-list defaults. -/
def generate_summary (analysis : PyDict) : Except Unit PyDict := do
  let tp ← topFieldOf (getD analysis "pain_points" (.arr [])) "pain_point"
  let de ← topFieldOf (getD analysis "emotional_patterns" (.arr [])) "emotion"
  let pd ← topFieldOf (getD analysis "desire_triggers" (.arr [])) "desire"
  let ne ← pyLen (getD analysis "emotional_patterns" (.arr []))
  let np ← pyLen (getD analysis "pain_points" (.arr []))
  let nd ← pyLen (getD analysis "desire_triggers" (.arr []))
  pure [("top_pain_point", tp), ("dominant_emotion", de), ("primary_desire", pd),
        ("total_emotional_patterns", .num (ne : Int)),
        ("total_pain_points", .num (np : Int)),
        ("total_desire_triggers", .num (nd : Int))]

/-- Python `item.get(k)` with default `None`. -/
def pyGet (item : PyDict) (k : String) : JsonV := getD item k .null

/-- Python `a or b`. -/
def pyOr (a b : JsonV) : JsonV := if pyTruthy a then a else b

/-- The `or`-chain `item.get('created_utc') or item.get('published_at') or
item.get('date')` from `_get_date_range`. -/
def timestampOf (item : PyDict) : JsonV :=
  pyOr (pyOr (pyGet item "created_utc") (pyGet item "published_at")) (pyGet item "date")

def strsOf : List JsonV → Option (List String)
  | [] => some []
  | .str s :: rest => (strsOf rest).map (s :: ·)
  | _ => none

def numsOf : List JsonV → Option (List Int)
  | [] => some []
  | .num n :: rest => (numsOf rest).map (n :: ·)
  | _ => none

def foldMin {α : Type} [LinearOrder α] (x : α) (xs : List α) : α := xs.foldl min x

def foldMax {α : Type} [LinearOrder α] (x : α) (xs : List α) : α := xs.foldl max x

/-- Python `min(dates)`/`max(dates)` on the collected timestamps: all strings
compare lexicographically by code point, all numbers numerically, and a mixed
list raises `TypeError`. -/
def pyMinMaxVals : List JsonV → Except Unit (JsonV × JsonV)
  | dates =>
    match strsOf dates with
    | some (s :: ss) => .ok (.str (foldMin s ss), .str (foldMax s ss))
    | some [] => .error ()
    | none =>
      match numsOf dates with
      | some (n :: ns) => .ok (.num (foldMin n ns), .num (foldMax n ns))
      | _ => .error ()

/-- `MessageMapGenerator._get_date_range`. -/
def get_date_range (raw_data : List PyDict) : Except Unit PyDict :=
  let dates := raw_data.filterMap (fun item =>
    let date_str := timestampOf item
    if pyTruthy date_str then some date_str else none)
  if dates.isEmpty then .ok [("earliest", .str "N/A"), ("latest", .str "N/A")]
  else do
    let (mn, mx) ← pyMinMaxVals dates
    pure [("earliest", mn), ("latest", mx)]

/-- The date range as claim C7 words it (stated for comparison with
`get_date_range`): one timestamp per record, chosen as the first *present*
field in the priority order `created_utc`, `published_at`, `date`; only
records with none of the three fields present are excluded. -/
def claimed_first_present (item : PyDict) : Option JsonV :=
  match lookupFirst item "created_utc" with
  | some v => some v
  | none =>
    match lookupFirst item "published_at" with
    | some v => some v
    | none => lookupFirst item "date"

/-- The date-range computation under claim C7's reading. -/
def claimed_date_range (raw_data : List PyDict) : Except Unit PyDict :=
  let dates := raw_data.filterMap claimed_first_present
  if dates.isEmpty then .ok [("earliest", .str "N/A"), ("latest", .str "N/A")]
  else do
    let (mn, mx) ← pyMinMaxVals dates
    pure [("earliest", mn), ("latest", mx)]

/-- The first present *and truthy* timestamp field in priority order — the
rule the code actually implements (see `c7_amended`). -/
def first_truthy_timestamp (item : PyDict) : Option JsonV :=
  if pyTruthy (pyGet item "created_utc") then some (pyGet item "created_utc")
  else if pyTruthy (pyGet item "published_at") then some (pyGet item "published_at")
  else if pyTruthy (pyGet item "date") then some (pyGet item "date")
  else none

/-- The date range restated with `first_truthy_timestamp` as the per-record
selection rule. -/
def amended_date_range (raw_data : List PyDict) : Except Unit PyDict :=
  let dates := raw_data.filterMap first_truthy_timestamp
  if dates.isEmpty then .ok [("earliest", .str "N/A"), ("latest", .str "N/A")]
  else do
    let (mn, mx) ← pyMinMaxVals dates
    pure [("earliest", mn), ("latest", mx)]

/-- A Python dict key must be hashable: `item.get('source', 'unknown')` used
as a key raises `TypeError` for lists and dicts. -/
def srcKey : JsonV → Except Unit JsonV
  | .arr _ => .error ()
  | .obj _ => .error ()
  | v => .ok v

/-- `sources[source] = sources.get(source, 0) + 1`: update in place, append
new keys at the end (Python dict insertion order). -/
def countInc (acc : List (JsonV × Nat)) (k : JsonV) : List (JsonV × Nat) :=
  match acc with
  | [] => [(k, 1)]
  | (k2, n) :: rest => if k2 = k then (k2, n + 1) :: rest else (k2, n) :: countInc rest k

def countSources : List PyDict → List (JsonV × Nat) → Except Unit (List (JsonV × Nat))
  | [], acc => .ok acc
  | item :: rest, acc => do
    let k ← srcKey (getD item "source" (.str "unknown"))
    countSources rest (countInc acc k)

/-- Rendering of a hashable scalar dict key into the string-keyed `PyDict`
embedding (source tags are strings on every path a claim exercises). -/
def keyRender : JsonV → String
  | .str s => s
  | .null => "None"
  | .bool true => "True"
  | .bool false => "False"
  | .num n => toString n
  | _ => ""

/-- `MessageMapGenerator._summarize_raw_data`. -/
def summarize_raw_data (raw_data : List PyDict) : Except Unit PyDict := do
  let cnt ← countSources raw_data []
  let dr ← get_date_range raw_data
  pure [("total_items", .num (raw_data.length : Int)),
        ("sources", .obj (cnt.map (fun p => (keyRender p.1, .num (p.2 : Int))))),
        ("date_range", .obj dr)]

/-- `self._summarize_raw_data(raw_data) if raw_data else None`: `None` when
the argument is `None` *or* an empty list. -/
def raw_data_summary_value (raw_data : Option (List PyDict)) : Except Unit JsonV :=
  match raw_data with
  | none => .ok .null
  | some l =>
    if l.isEmpty then .ok .null
    else (summarize_raw_data l).map .obj

/-- `MessageMapGenerator.generate_message_map`: the pass-through merge.
`now` stands for `datetime.now().isoformat()`. -/
def generate_message_map (analysis ad_framework : PyDict)
    (raw_data : Option (List PyDict)) (metadata : Option PyDict) (now : String) :
    Except Unit PyDict := do
  let summary ← generate_summary analysis
  let rawv ← raw_data_summary_value raw_data
  pure [("generated_at", .str now),
        ("metadata", .obj (metadata.getD [])),
        ("executive_summary", .obj summary),
        ("emotional_intelligence", getD analysis "emotional_patterns" (.arr [])),
        ("pain_points", getD analysis "pain_points" (.arr [])),
        ("desire_triggers", getD analysis "desire_triggers" (.arr [])),
        ("awareness_stages", getD analysis "awareness_stages" (.obj [])),
        ("language_patterns", getD analysis "language_patterns" (.obj [])),
        ("ad_ready_hooks", getD ad_framework "hooks" (.obj [])),
        ("body_copy_frameworks", getD ad_framework "body_copy_frameworks" (.arr [])),
        ("headline_formulas", getD ad_framework "headline_formulas" (.arr [])),
        ("call_to_actions", getD ad_framework "call_to_action_suggestions" (.arr [])),
        ("objection_handlers", getD ad_framework "objection_handlers" (.arr [])),
        ("key_insights", getD analysis "key_insights" (.arr [])),
        ("raw_data_summary", rawv)]

/-! ### Renderer (message_map.py): prose (Markdown) and styled (HTML)

Each `md.append(...)` of `_generate_markdown` is one element of the produced
line list (the final document is the lines joined with a newline), and each
`html += ...` of `_generate_html` is mirrored by chunks whose concatenation is
the produced document; interpolated values are their own chunks, marked
dynamic, so that section headers can be read off the fixed template text. -/

mutual

/-- Python `repr` of a value, as used when a non-string value is interpolated
into an f-string via `str` (string escaping inside `repr` is not modelled; no
claim renders a string that needs it). -/
def pyRepr : JsonV → String
  | .null => "None"
  | .bool true => "True"
  | .bool false => "False"
  | .num n => toString n
  | .str s => String.singleton (Char.ofNat 39) ++ s ++ String.singleton (Char.ofNat 39)
  | .arr xs => "[" ++ pyReprList xs ++ "]"
  | .obj fs => String.singleton lbraceC ++ pyReprFields fs ++ String.singleton rbraceC

def pyReprList : List JsonV → String
  | [] => ""
  | [x] => pyRepr x
  | x :: xs => pyRepr x ++ ", " ++ pyReprList xs

def pyReprFields : List (String × JsonV) → String
  | [] => ""
  | [(k, v)] =>
    String.singleton (Char.ofNat 39) ++ k ++ String.singleton (Char.ofNat 39) ++ ": " ++ pyRepr v
  | (k, v) :: fs =>
    String.singleton (Char.ofNat 39) ++ k ++ String.singleton (Char.ofNat 39) ++ ": " ++ pyRepr v
      ++ ", " ++ pyReprFields fs

end

/-- Python `str(v)` as used by f-string interpolation. -/
def pyStr : JsonV → String
  | .str s => s
  | v => pyRepr v

def pyTitleChars : List Char → Bool → List Char
  | [], _ => []
  | c :: cs, prev =>
    if c.isAlpha then (if prev then c.toLower else c.toUpper) :: pyTitleChars cs true
    else c :: pyTitleChars cs false

/-- Python `str.title()` (over alphabetic characters). -/
def pyTitle (s : String) : String := String.mk (pyTitleChars s.data false)

/-- Python `v.title()`: `AttributeError` unless `v` is a string. -/
def pyTitleE : JsonV → Except Unit String
  | .str s => .ok (pyTitle s)
  | _ => .error ()

/-- The section header a produced Markdown line carries: lines the renderer
emits as `## <header>` (subsection lines start with `###` and never match). -/
def mdHeaderOf (l : String) : Option String :=
  match l.data with
  | c1 :: c2 :: c3 :: rest =>
    if c1 = '#' && c2 = '#' && c3 = ' ' then
      some (String.mk (rest.takeWhile (fun c => c != '\n')))
    else none
  | _ => none

/-- Sequence the per-element renderings of a loop body, concatenating the
produced fragments; the first raised exception aborts the render. -/
def blocksE {a b : Type} (f : a → Except Unit (List b)) : List a → Except Unit (List b)
  | [] => .ok []
  | x :: xs => do
    let blk ← f x
    let rest ← blocksE f xs
    .ok (blk ++ rest)

def mdSummarySection (m : PyDict) : Except Unit (List String) := do
  let summary := getD m "executive_summary" (.obj [])
  let tp ← pyGetE summary "top_pain_point" (.str "N/A")
  let de ← pyGetE summary "dominant_emotion" (.str "N/A")
  let pd ← pyGetE summary "primary_desire" (.str "N/A")
  let te ← pyGetE summary "total_emotional_patterns" (.num 0)
  .ok ["## Executive Summary\n",
       "- **Top Pain Point:** " ++ pyStr tp,
       "- **Dominant Emotion:** " ++ pyStr de,
       "- **Primary Desire:** " ++ pyStr pd,
       "- **Total Patterns Identified:** " ++ pyStr te,
       ""]

def mdInsightsSection (m : PyDict) : Except Unit (List String) := do
  let xs ← pyIterE (getD m "key_insights" (.arr []))
  .ok (["## Key Insights\n"] ++ xs.map (fun i => "- " ++ pyStr i) ++ [""])

def mdPainBlock (pain : Nat × JsonV) : Except Unit (List String) := do
  let pp ← pyGetE pain.2 "pain_point" (.str "N/A")
  let sev ← pyGetE pain.2 "severity" (.str "N/A")
  let qv ← pyGetE pain.2 "customer_quotes" (.arr [])
  let quotes ← pyIterE qv
  .ok (["### " ++ toString pain.1 ++ ". " ++ pyStr pp,
        "**Severity:** " ++ pyStr sev,
        "\n**Customer Quotes:**"] ++
       quotes.map (fun q => "> " ++ pyStr q) ++ [""])

def mdPainSection (m : PyDict) : Except Unit (List String) := do
  let pains ← pyIterE (getD m "pain_points" (.arr []))
  let blocks ← blocksE mdPainBlock (List.enumFrom 1 pains)
  .ok (["## Pain Points\n"] ++ blocks)

def mdEmotionBlock (emotion : JsonV) : Except Unit (List String) := do
  let nameV ← pyGetE emotion "emotion" (.str "N/A")
  let t ← pyTitleE nameV
  let freq ← pyGetE emotion "frequency" (.str "N/A")
  let angle ← pyGetE emotion "advertising_angle" (.str "N/A")
  let qv ← pyGetE emotion "example_quotes" (.arr [])
  let quotes ← pyIterE qv
  .ok (["### " ++ t,
        "**Frequency:** " ++ pyStr freq,
        "**Advertising Angle:** " ++ pyStr angle,
        "\n**Example Quotes:**"] ++
       quotes.map (fun q => "> " ++ pyStr q) ++ [""])

def mdEmotionSection (m : PyDict) : Except Unit (List String) := do
  let es ← pyIterE (getD m "emotional_intelligence" (.arr []))
  let blocks ← blocksE mdEmotionBlock es
  .ok (["## Emotional Patterns\n"] ++ blocks)

def md_stage_pairs : List (String × String) :=
  [("unaware", "Unaware"), ("problem_aware", "Problem Aware"),
   ("solution_aware", "Solution Aware"), ("product_aware", "Product Aware"),
   ("most_aware", "Most Aware")]

def mdStageBlock (awareness : JsonV) (p : String × String) : Except Unit (List String) := do
  let sd ← pyGetE awareness p.1 (.obj [])
  if pyTruthy sd then do
    let iv ← pyGetE sd "indicators" (.arr [])
    let indicators ← pyIterE iv
    let qv ← pyGetE sd "quotes" (.arr [])
    let quotes ← pyIterE qv
    .ok (["### " ++ p.2, "\n**Key Phrases:**"] ++
         indicators.map (fun i => "- " ++ pyStr i) ++
         ["\n**Example Quotes:**"] ++
         quotes.map (fun q => "> " ++ pyStr q) ++ [""])
  else .ok []

def mdAwarenessSection (m : PyDict) : Except Unit (List String) := do
  let awareness := getD m "awareness_stages" (.obj [])
  let blocks ← blocksE (mdStageBlock awareness) md_stage_pairs
  .ok (["## Customer Awareness Stages\n"] ++ blocks)

def mdHookBlock (p : String × JsonV) : Except Unit (List String) := do
  let hooks ← pyIterE p.2
  .ok (["### " ++ pyTitle (p.1.replace "_" " ")] ++
       hooks.map (fun h => "- " ++ pyStr h) ++ [""])

def mdHooksSection (m : PyDict) : Except Unit (List String) := do
  match getD m "ad_ready_hooks" (.obj []) with
  | .obj fs => do
    let blocks ← blocksE mdHookBlock fs
    .ok (["## Ad-Ready Hooks\n"] ++ blocks)
  | _ => .error ()

def mdFrameworkBlock (fw : JsonV) : Except Unit (List String) := do
  let nameV ← pyGetE fw "framework_name" (.str "N/A")
  let ta ← pyGetE fw "target_awareness" (.str "N/A")
  let ex ← pyGetE fw "example" (.str "N/A")
  .ok (["### " ++ pyStr nameV,
        "**Target Awareness:** " ++ pyStr ta,
        "\n**Example:**",
        "> " ++ pyStr ex,
        ""])

def mdFrameworksSection (m : PyDict) : Except Unit (List String) := do
  let fws ← pyIterE (getD m "body_copy_frameworks" (.arr []))
  let blocks ← blocksE mdFrameworkBlock fws
  .ok (["## Body Copy Frameworks\n"] ++ blocks)

def mdCtaSection (m : PyDict) : Except Unit (List String) := do
  let xs ← pyIterE (getD m "call_to_actions" (.arr []))
  .ok (["## Call to Action Suggestions\n"] ++ xs.map (fun c => "- " ++ pyStr c) ++ [""])

def mdObjBlock (o : JsonV) : Except Unit (List String) := do
  let ob ← pyGetE o "objection" (.str "N/A")
  let rp ← pyGetE o "response" (.str "N/A")
  .ok (["**Objection:** " ++ pyStr ob, "**Response:** " ++ pyStr rp, ""])

def mdObjectionSection (m : PyDict) : Except Unit (List String) := do
  let os ← pyIterE (getD m "objection_handlers" (.arr []))
  let blocks ← blocksE mdObjBlock os
  .ok (["## Objection Handlers\n"] ++ blocks)

/-- `MessageMapGenerator._generate_markdown`, as the list of appended lines. -/
def generate_markdown_lines (m : PyDict) : Except Unit (List String) := do
  let s1 ← mdSummarySection m
  let s2 ← mdInsightsSection m
  let s3 ← mdPainSection m
  let s4 ← mdEmotionSection m
  let s5 ← mdAwarenessSection m
  let s6 ← mdHooksSection m
  let s7 ← mdFrameworksSection m
  let s8 ← mdCtaSection m
  let s9 ← mdObjectionSection m
  .ok (["# Customer Language Message Map",
        "\nGenerated: " ++ pyStr (getD m "generated_at" (.str "N/A")) ++ "\n"] ++
       s1 ++ s2 ++ s3 ++ s4 ++ s5 ++ s6 ++ s7 ++ s8 ++ s9)

/-- The prose encoding: the appended lines joined with newlines. -/
def generate_markdown (m : PyDict) : Except Unit String :=
  (generate_markdown_lines m).map (String.intercalate "\n")

/-- The ordered section headers of the prose encoding. -/
def markdown_section_headers (m : PyDict) : Except Unit (List String) :=
  (generate_markdown_lines m).map (fun ls => ls.filterMap mdHeaderOf)

def htmlTpl1 : String :=
  "<!DOCTYPE html>\n<html lang=\"en\">\n<head>\n    <meta charset=\"UTF-8\">\n    <meta name=\"viewport\" content=\"width=device-width, initial-scale=1.0\">\n    <title>Customer Language Message Map</title>\n    <style>\n        body \x7b\n            font-family: -apple-system, BlinkMacSystemFont, \x27Segoe UI\x27, Roboto, Oxygen, Ubuntu, Cantarell, sans-serif;\n            line-height: 1.6;\n            max-width: 1200px;\n            margin: 0 auto;\n            padding: 20px;\n            background: #f5f5f5;\n        \x7d\n        .container \x7b\n            background: white;\n            padding: 30px;\n            border-radius: 8px;\n            box-shadow: 0 2px 4px rgba(0,0,0,0.1);\n        \x7d\n        h1 \x7b color: #2c3e50; border-bottom: 3px solid #3498db; padding-bottom: 10px; \x7d\n        h2 \x7b color: #34495e; margin-top: 30px; border-left: 4px solid #3498db; padding-left: 10px; \x7d\n        h3 \x7b color: #7f8c8d; \x7d\n        .summary \x7b\n            background: #ecf0f1;\n            padding: 20px;\n            border-radius: 5px;\n            margin: 20px 0;\n        \x7d\n        .quote \x7b\n            border-left: 4px solid #3498db;\n            padding-left: 15px;\n            margin: 10px 0;\n            font-style: italic;\n            color: #555;\n        \x7d\n        .hook \x7b\n            background: #e8f8f5;\n            padding: 10px 15px;\n            margin: 10px 0;\n            border-radius: 5px;\n            border-left: 3px solid #27ae60;\n        \x7d\n        .pain-point \x7b\n            background: #fdedec;\n            padding: 15px;\n            margin: 15px 0;\n            border-radius: 5px;\n            border-left: 3px solid #e74c3c;\n        \x7d\n        .emotion \x7b\n            background: #fff9e6;\n            padding: 15px;\n            margin: 15px 0;\n            border-radius: 5px;\n            border-left: 3px solid #f39c12;\n        \x7d\n        .framework \x7b\n            background: #f0f8ff;\n            padding: 15px;\n            margin: 15px 0;\n            border-radius: 5px;\n            border: 1px solid #3498db;\n        \x7d\n        .badge \x7b\n            display: inline-block;\n            padding: 3px 8px;\n            border-radius: 3px;\n            font-size: 12px;\n            font-weight: bold;\n            margin-right: 5px;\n        \x7d\n        .badge-high \x7b background: #e74c3c; color: white; \x7d\n        .badge-medium \x7b background: #f39c12; color: white; \x7d\n        .badge-low \x7b background: #27ae60; color: white; \x7d\n    </style>\n</head>\n<body>\n    <div class=\"container\">\n        <h1>Customer Language Message Map</h1>\n        <p><strong>Generated:</strong> "

def htmlTpl2a : String :=
  "</p>\n\n        <div class=\"summary\">\n            "

def htmlTpl2b : String :=
  "\n            <p><strong>Top Pain Point:</strong> "

def htmlTpl3 : String :=
  "</p>\n            <p><strong>Dominant Emotion:</strong> "

def htmlTpl4 : String :=
  "</p>\n            <p><strong>Primary Desire:</strong> "

def htmlTpl5 : String :=
  "</p>\n            <p><strong>Patterns Identified:</strong> "

def htmlTpl6 : String :=
  " emotional patterns,\n               "

def htmlTpl7 : String :=
  " pain points,\n               "

def htmlTpl8a : String :=
  " desire triggers</p>\n        </div>\n\n        "

def htmlTpl8b : String :=
  "\n        <ul>\n"

/-- A chunk of the styled document: fixed template text, an interpolated
value, or a section header (which renders as an `<h2>` element).  The
document is the concatenation of the chunk texts; the extra structure only
records where the fixed template places its section headers. -/
inductive HChunk where
  | lit (s : String) : HChunk
  | dyn (s : String) : HChunk
  | hdr (s : String) : HChunk

def HChunk.text : HChunk → String
  | .lit s => s
  | .dyn s => s
  | .hdr s => "<h2>" ++ s ++ "</h2>"

def htmlHeadChunks (m : PyDict) : Except Unit (List HChunk) := do
  let summary := getD m "executive_summary" (.obj [])
  let tp ← pyGetE summary "top_pain_point" (.str "N/A")
  let de ← pyGetE summary "dominant_emotion" (.str "N/A")
  let pd ← pyGetE summary "primary_desire" (.str "N/A")
  let te ← pyGetE summary "total_emotional_patterns" (.num 0)
  let tpn ← pyGetE summary "total_pain_points" (.num 0)
  let td ← pyGetE summary "total_desire_triggers" (.num 0)
  .ok [.lit htmlTpl1, .dyn (pyStr (getD m "generated_at" (.str "N/A"))), .lit htmlTpl2a,
       .hdr "Executive Summary", .lit htmlTpl2b,
       .dyn (pyStr tp), .lit htmlTpl3, .dyn (pyStr de), .lit htmlTpl4, .dyn (pyStr pd),
       .lit htmlTpl5, .dyn (pyStr te), .lit htmlTpl6, .dyn (pyStr tpn), .lit htmlTpl7,
       .dyn (pyStr td), .lit htmlTpl8a, .hdr "Key Insights", .lit htmlTpl8b]

def htmlInsightsSection (m : PyDict) : Except Unit (List HChunk) := do
  let xs ← pyIterE (getD m "key_insights" (.arr []))
  .ok ((xs.map (fun i => [.lit "            <li>", .dyn (pyStr i), .lit "</li>\n"])).flatten ++
       [.lit "        </ul>\n\n        ", .hdr "Pain Points", .lit "\n"])

def htmlPainBlock (pain : JsonV) : Except Unit (List HChunk) := do
  let sev ← pyGetE pain "severity" (.str "medium")
  let pp ← pyGetE pain "pain_point" (.str "N/A")
  let qv ← pyGetE pain "customer_quotes" (.arr [])
  let quotes ← pyIterE qv
  .ok ([.lit "        <div class=\"pain-point\">\n            <h3>", .dyn (pyStr pp),
        .lit " <span class=\"badge badge-", .dyn (pyStr sev), .lit "\">", .dyn (pyStr sev),
        .lit "</span></h3>\n            <p><strong>Customer Quotes:</strong></p>\n"] ++
       (quotes.map (fun q =>
         [.lit "            <div class=\"quote\">", .dyn (pyStr q), .lit "</div>\n"])).flatten ++
       [.lit "        </div>\n"])

def htmlPainSection (m : PyDict) : Except Unit (List HChunk) := do
  let pains ← pyIterE (getD m "pain_points" (.arr []))
  blocksE htmlPainBlock pains

def htmlHookBlock (p : String × JsonV) : Except Unit (List HChunk) := do
  let hooks ← pyIterE p.2
  .ok ([.lit "        <h3>", .dyn (pyTitle (p.1.replace "_" " ")), .lit "</h3>\n"] ++
       (hooks.map (fun h =>
         [.lit "        <div class=\"hook\">", .dyn (pyStr h), .lit "</div>\n"])).flatten)

def htmlHooksSection (m : PyDict) : Except Unit (List HChunk) := do
  match getD m "ad_ready_hooks" (.obj []) with
  | .obj fs => do
    let blocks ← blocksE htmlHookBlock fs
    .ok ([.lit "\n        ", .hdr "Ad-Ready Hooks", .lit "\n"] ++ blocks)
  | _ => .error ()

def htmlFrameworkBlock (fw : JsonV) : Except Unit (List HChunk) := do
  let nameV ← pyGetE fw "framework_name" (.str "N/A")
  let ta ← pyGetE fw "target_awareness" (.str "N/A")
  let ex ← pyGetE fw "example" (.str "N/A")
  .ok [.lit "        <div class=\"framework\">\n            <h3>", .dyn (pyStr nameV),
       .lit "</h3>\n            <p><strong>Target Awareness:</strong> ", .dyn (pyStr ta),
       .lit "</p>\n            <p><strong>Example:</strong></p>\n            <div class=\"quote\">",
       .dyn (pyStr ex), .lit "</div>\n        </div>\n"]

def htmlFrameworksSection (m : PyDict) : Except Unit (List HChunk) := do
  let fws ← pyIterE (getD m "body_copy_frameworks" (.arr []))
  let blocks ← blocksE htmlFrameworkBlock fws
  .ok ([.lit "\n        ", .hdr "Body Copy Frameworks", .lit "\n"] ++ blocks)

/-- `MessageMapGenerator._generate_html`, as the chunk sequence. -/
def generate_html_chunks (m : PyDict) : Except Unit (List HChunk) := do
  let c1 ← htmlHeadChunks m
  let c2 ← htmlInsightsSection m
  let c3 ← htmlPainSection m
  let c4 ← htmlHooksSection m
  let c5 ← htmlFrameworksSection m
  .ok (c1 ++ c2 ++ c3 ++ c4 ++ c5 ++ [.lit "    </div>\n</body>\n</html>"])

/-- The styled encoding: the chunk texts concatenated. -/
def generate_html (m : PyDict) : Except Unit String :=
  (generate_html_chunks m).map (fun cs => String.join (cs.map HChunk.text))

/-- The ordered section headers of the styled encoding: the `hdr` chunks the
fixed template emits. -/
def chunkH2s (cs : List HChunk) : List String :=
  cs.filterMap (fun c => match c with | .hdr s => some s | _ => none)

def html_section_headers (m : PyDict) : Except Unit (List String) :=
  (generate_html_chunks m).map chunkH2s

/-- First-element field selection as the executive-summary derivation words
it: the field `k` of the first element, or the sentinel `"N/A"` when the
sequence is empty. -/
def firstDescr (xs : List JsonV) (k : String) : Except Unit JsonV :=
  match xs with
  | [] => .ok (.str "N/A")
  | x :: _ => pySubscript x k

/-- A nested comment/reply element on which the code and the spec's corpus
contract agree: either not a dict (both sides skip it), or a dict whose
`text`, when present, is non-empty, and which has no title and no nested
children. -/
def simpleChild (c : JsonV) : Bool :=
  match c with
  | .obj cf =>
    (match lookupFirst cf "text" with
     | some t => pyTruthy t
     | none => true) &&
    (lookupFirst cf "title").isNone && (lookupFirst cf "comments").isNone &&
    (lookupFirst cf "replies").isNone
  | _ => true

def childOk (item : PyDict) (k : String) : Bool :=
  match lookupFirst item k with
  | some (.arr xs) => xs.all simpleChild
  | _ => true

/-- A record on which `record_texts` and `specTexts` agree: a truthy title is
distinct from the body value, and the nested children are simple. -/
def wellFormedRecord (item : PyDict) : Bool :=
  (match lookupFirst item "title" with
   | some t => !(pyTruthy t) || (t != (lookupFirst item "text").getD .null)
   | none => true) &&
  childOk item "comments" && childOk item "replies"

/-- The ordered section headers of the prose encoding, as constants. -/
def md_section_header_list : List String :=
  ["Executive Summary", "Key Insights", "Pain Points", "Emotional Patterns",
   "Customer Awareness Stages", "Ad-Ready Hooks", "Body Copy Frameworks",
   "Call to Action Suggestions", "Objection Handlers"]

/-- The ordered section headers of the styled encoding, as constants. -/
def html_section_header_list : List String :=
  ["Executive Summary", "Key Insights", "Pain Points", "Ad-Ready Hooks",
   "Body Copy Frameworks"]

/-! ## Theorems settling the claims -/

/-- Reduction of the three summary branches via `firstDescr`. -/
theorem summary_branch_eq (xs : List JsonV) (k : String) (v : JsonV)
    (h : firstDescr xs k = .ok v) :
    topFieldOf (.arr xs) k = .ok v := by
  cases xs with
  | nil =>
    simp only [firstDescr] at h
    simp [topFieldOf, pyTruthy, ← h]
    rfl
  | cons x rest =>
    simp only [firstDescr] at h
    simp [topFieldOf, pyTruthy, pyIndex0]
    exact h

/-- C8: for every text-unit sequence longer than 100 given to the
pattern-extraction pass, exactly the first 100 units, in order, are joined
with the separator and embedded in the prompt; the rest are dropped. -/
theorem c8_truncation (texts : List String) (context : String)
    (h : 100 < texts.length) :
    build_analysis_prompt texts context = build_analysis_prompt (texts.take 100) context ∧
    (texts.take 100).length = 100 ∧
    ∃ rest, texts.take 100 ++ rest = texts := by
  refine ⟨?_, ?_, texts.drop 100, List.take_append_drop 100 texts⟩
  · simp [build_analysis_prompt, List.take_take]
  · simp
    omega

/-- Witness for C8 at a concrete 101-element input. -/
theorem c8_truncation_witness :
    100 < (List.replicate 101 "t").length ∧
    build_analysis_prompt (List.replicate 101 "t") "" =
      build_analysis_prompt ((List.replicate 101 "t").take 100) "" := by
  have h : 100 < (List.replicate 101 "t").length := by simp
  exact ⟨h, (c8_truncation (List.replicate 101 "t") "" h).1⟩

/-- C9: a transport/API failure in the pattern pass or the ad-framework pass
is caught at the call boundary and turned into the `{error: message}` dict;
both passes are total functions of one call outcome (no retry, nothing
propagates). -/
theorem c9_error_isolation (e : String) :
    analyze_batch (.error e) = .obj [("error", .str e)] ∧
    generate_ad_copy_framework (.error e) = .obj [("error", .str e)] :=
  ⟨rfl, rfl⟩

/-- C1 counterexample: a response that is valid JSON of the wrong shape
(`"[]"`) is returned parsed, not wrapped as `{raw_analysis: ...}` as the
claim states. -/
theorem c1_counterexample :
    analyze_batch (.ok "[]") = .arr [] ∧
    analyze_batch (.ok "[]") ≠ .obj [("raw_analysis", .str "[]")] := by
  exact ⟨rfl, by decide⟩

/-- C1 (amended): only a response that `json.loads` rejects is wrapped as
`{raw_analysis: <full response text>}`; any response that parses — of
whatever shape — is returned in parsed form; in both cases no exception is
raised and the raw wrapper still yields a message map downstream. -/
theorem c1_amended (t : String) (fw : PyDict) (now : String) :
    (json_loads t = none →
      analyze_batch (.ok t) = .obj [("raw_analysis", .str t)] ∧
      ∃ mm, generate_message_map [("raw_analysis", .str t)] fw none none now = .ok mm) ∧
    (∀ v, json_loads t = some v → analyze_batch (.ok t) = v) := by
  constructor
  · intro h
    refine ⟨by simp [analyze_batch, h], ⟨_, rfl⟩⟩
  · intro v h
    simp [analyze_batch, h]

/-- Witness for C1 (amended) at the spec's degrade-law input `"not json"`. -/
theorem c1_amended_witness :
    json_loads "not json" = none ∧
    analyze_batch (.ok "not json") = .obj [("raw_analysis", .str "not json")] ∧
    ∃ mm, generate_message_map [("raw_analysis", .str "not json")] [] none none "ts" = .ok mm := by
  have h : json_loads "not json" = none := rfl
  obtain ⟨h1, h2⟩ := (c1_amended "not json" [] "ts").1 h
  exact ⟨h, h1, h2⟩

/-- C10: the categorization pass returns the completely empty dict — no stage
keys — when no input item has the text field, when the LLM call fails, and
when the response is not parseable JSON. -/
theorem c10_empty_results (data : List PyDict) (tf : String)
    (cr : Except String String) (e : String) (txt : String) :
    ((∀ item ∈ data, lookupFirst item tf = none) →
      categorize_by_awareness data tf cr = []) ∧
    categorize_by_awareness data tf (.error e) = [] ∧
    (json_loads txt = none → categorize_by_awareness data tf (.ok txt) = []) := by
  refine ⟨?_, ?_, ?_⟩
  · intro hall
    have hnil : data.filterMap (fun item => lookupFirst item tf) = [] :=
      List.filterMap_eq_nil_iff.mpr hall
    simp [categorize_by_awareness, hnil]
  · by_cases hT : ((data.filterMap (fun item => lookupFirst item tf)).take 50).isEmpty <;>
      simp [categorize_by_awareness, hT]
  · intro h
    by_cases hT : ((data.filterMap (fun item => lookupFirst item tf)).take 50).isEmpty <;>
      simp [categorize_by_awareness, hT, h]

/-- Witness for C10: a record without the text field, a transport error, and
the unparseable response `"oops"`. -/
theorem c10_empty_results_witness :
    (∀ item ∈ ([[("source", .str "reddit")]] : List PyDict),
      lookupFirst item "text" = none) ∧
    categorize_by_awareness [[("source", .str "reddit")]] "text" (.ok "x") = [] ∧
    categorize_by_awareness [[("source", .str "reddit")]] "text" (.error "boom") = [] ∧
    json_loads "oops" = none ∧
    categorize_by_awareness [[("text", .str "hi")]] "text" (.ok "oops") = [] := by
  have h1 : ∀ item ∈ ([[("source", .str "reddit")]] : List PyDict),
      lookupFirst item "text" = none := by decide
  have h2 : json_loads "oops" = none := rfl
  exact ⟨h1, (c10_empty_results [[("source", .str "reddit")]] "text" (.ok "x") "boom" "oops").1 h1,
         (c10_empty_results [[("source", .str "reddit")]] "text" (.ok "x") "boom" "oops").2.1,
         h2, (c10_empty_results [[("text", .str "hi")]] "text" (.ok "x") "boom" "oops").2.2 h2⟩

/-- C7 counterexample: on a record whose `created_utc` is present but empty
(with a `date` of `"b"`), the code takes `"b"` while the claimed
first-present rule takes `""`. -/
theorem c7_counterexample :
    get_date_range [[("created_utc", .str ""), ("date", .str "b")]] =
      .ok [("earliest", .str "b"), ("latest", .str "b")] ∧
    claimed_date_range [[("created_utc", .str ""), ("date", .str "b")]] =
      .ok [("earliest", .str ""), ("latest", .str "")] ∧
    get_date_range [[("created_utc", .str ""), ("date", .str "b")]] ≠
      claimed_date_range [[("created_utc", .str ""), ("date", .str "b")]] := by
  have e1 : get_date_range [[("created_utc", .str ""), ("date", .str "b")]] =
      .ok [("earliest", .str "b"), ("latest", .str "b")] := rfl
  have e2 : claimed_date_range [[("created_utc", .str ""), ("date", .str "b")]] =
      .ok [("earliest", .str ""), ("latest", .str "")] := rfl
  refine ⟨e1, e2, fun h => ?_⟩
  rw [e1, e2] at h
  simp at h

/-- C7 (amended): the per-record timestamp is the first *present and
non-empty (truthy)* field in the priority order `created_utc`,
`published_at`, `date`; records whose three fields are all absent or falsy
are excluded; bounds are `"N/A"` when no record contributes. -/
theorem c7_amended (raw_data : List PyDict) :
    get_date_range raw_data = amended_date_range raw_data := by
  have hpt : ∀ item : PyDict,
      (if pyTruthy (timestampOf item) then some (timestampOf item) else none) =
        first_truthy_timestamp item := by
    intro item
    by_cases h1 : pyTruthy (pyGet item "created_utc") <;>
    by_cases h2 : pyTruthy (pyGet item "published_at") <;>
    by_cases h3 : pyTruthy (pyGet item "date") <;>
      simp [timestampOf, pyOr, first_truthy_timestamp, h1, h2, h3]
  have hfm : raw_data.filterMap
        (fun item => if pyTruthy (timestampOf item) then some (timestampOf item) else none) =
      raw_data.filterMap first_truthy_timestamp := by
    induction raw_data with
    | nil => rfl
    | cons a l ih => simp only [List.filterMap_cons, hpt a, ih]
  unfold get_date_range amended_date_range
  rw [hfm]

/-- C6: the executive summary takes the description field of the first pain
point, the emotion of the first emotional pattern and the desire of the first
desire trigger, with the `"N/A"` sentinel on empty sequences, and the three
counts are the sequence lengths. -/
theorem c6_summary (analysis : PyDict) (pps emos dsrs : List JsonV) (tp de pd : JsonV)
    (hp : getD analysis "pain_points" (.arr []) = .arr pps)
    (he : getD analysis "emotional_patterns" (.arr []) = .arr emos)
    (hd : getD analysis "desire_triggers" (.arr []) = .arr dsrs)
    (htp : firstDescr pps "pain_point" = .ok tp)
    (hde : firstDescr emos "emotion" = .ok de)
    (hpd : firstDescr dsrs "desire" = .ok pd) :
    generate_summary analysis =
      .ok [("top_pain_point", tp), ("dominant_emotion", de), ("primary_desire", pd),
           ("total_emotional_patterns", .num (emos.length : Int)),
           ("total_pain_points", .num (pps.length : Int)),
           ("total_desire_triggers", .num (dsrs.length : Int))] := by
  unfold generate_summary
  rw [hp, he, hd, summary_branch_eq pps "pain_point" tp htp,
      summary_branch_eq emos "emotion" de hde, summary_branch_eq dsrs "desire" pd hpd]
  simp [pyLen, Bind.bind, Except.bind]
  rfl

/-- Witness for C6 at the spec's example: pain-point descriptions A and B, no
emotions, desire X. -/
theorem c6_summary_witness :
    generate_summary
        [("pain_points", .arr [.obj [("pain_point", .str "A")], .obj [("pain_point", .str "B")]]),
         ("emotional_patterns", .arr []),
         ("desire_triggers", .arr [.obj [("desire", .str "X")]])] =
      .ok [("top_pain_point", .str "A"), ("dominant_emotion", .str "N/A"),
           ("primary_desire", .str "X"), ("total_emotional_patterns", .num 0),
           ("total_pain_points", .num 2), ("total_desire_triggers", .num 1)] :=
  c6_summary
    [("pain_points", .arr [.obj [("pain_point", .str "A")], .obj [("pain_point", .str "B")]]),
     ("emotional_patterns", .arr []),
     ("desire_triggers", .arr [.obj [("desire", .str "X")]])]
    [.obj [("pain_point", .str "A")], .obj [("pain_point", .str "B")]]
    [] [.obj [("desire", .str "X")]]
    (.str "A") (.str "N/A") (.str "X") rfl rfl rfl rfl rfl rfl

/-- C4 counterexample: a non-empty pain-point list whose first element lacks
the `pain_point` key makes the summary derivation raise `KeyError`, which
aborts `generate_message_map` — the merge does fail. -/
theorem c4_counterexample :
    generate_summary [("pain_points", .arr [.obj []])] = .error () ∧
    generate_message_map [("pain_points", .arr [.obj []])] [] none none "ts" = .error () :=
  ⟨rfl, rfl⟩

/-- C4 (amended): the merge copies every AnalysisResult/AdFramework field
through verbatim with empty-container defaults for missing top-level keys,
and fails exactly when the summary derivation (or the raw-data digest)
raises — in particular when a non-empty pain-point/emotion/desire sequence
starts with an element lacking its description field. -/
theorem c4_amended (analysis ad_framework : PyDict) (raw_data : Option (List PyDict))
    (metadata : Option PyDict) (now : String) :
    (∀ s rv, generate_summary analysis = .ok s → raw_data_summary_value raw_data = .ok rv →
      generate_message_map analysis ad_framework raw_data metadata now =
        .ok [("generated_at", .str now),
             ("metadata", .obj (metadata.getD [])),
             ("executive_summary", .obj s),
             ("emotional_intelligence", getD analysis "emotional_patterns" (.arr [])),
             ("pain_points", getD analysis "pain_points" (.arr [])),
             ("desire_triggers", getD analysis "desire_triggers" (.arr [])),
             ("awareness_stages", getD analysis "awareness_stages" (.obj [])),
             ("language_patterns", getD analysis "language_patterns" (.obj [])),
             ("ad_ready_hooks", getD ad_framework "hooks" (.obj [])),
             ("body_copy_frameworks", getD ad_framework "body_copy_frameworks" (.arr [])),
             ("headline_formulas", getD ad_framework "headline_formulas" (.arr [])),
             ("call_to_actions", getD ad_framework "call_to_action_suggestions" (.arr [])),
             ("objection_handlers", getD ad_framework "objection_handlers" (.arr [])),
             ("key_insights", getD analysis "key_insights" (.arr [])),
             ("raw_data_summary", rv)]) ∧
    (∀ u, generate_summary analysis = .error u →
      generate_message_map analysis ad_framework raw_data metadata now = .error u) := by
  constructor
  · intro s rv hs hr
    unfold generate_message_map
    rw [hs, hr]
    rfl
  · intro u hu
    unfold generate_message_map
    rw [hu]
    rfl

/-- Witness for C4 (amended) at a concrete analysis, ad framework and raw
record. -/
theorem c4_amended_witness :
    generate_summary [("pain_points", .arr [.obj [("pain_point", .str "P")]])] =
      .ok [("top_pain_point", .str "P"), ("dominant_emotion", .str "N/A"),
           ("primary_desire", .str "N/A"), ("total_emotional_patterns", .num 0),
           ("total_pain_points", .num 1), ("total_desire_triggers", .num 0)] ∧
    raw_data_summary_value (some [[("source", .str "reddit"), ("created_utc", .str "2020")]]) =
      .ok (.obj [("total_items", .num 1), ("sources", .obj [("reddit", .num 1)]),
                 ("date_range", .obj [("earliest", .str "2020"), ("latest", .str "2020")])]) ∧
    generate_message_map [("pain_points", .arr [.obj [("pain_point", .str "P")]])]
        [("hooks", .obj [("problem_aware", .arr [.str "H"])])]
        (some [[("source", .str "reddit"), ("created_utc", .str "2020")]]) none "ts" =
      .ok [("generated_at", .str "ts"),
           ("metadata", .obj []),
           ("executive_summary", .obj
             [("top_pain_point", .str "P"), ("dominant_emotion", .str "N/A"),
              ("primary_desire", .str "N/A"), ("total_emotional_patterns", .num 0),
              ("total_pain_points", .num 1), ("total_desire_triggers", .num 0)]),
           ("emotional_intelligence", .arr []),
           ("pain_points", .arr [.obj [("pain_point", .str "P")]]),
           ("desire_triggers", .arr []),
           ("awareness_stages", .obj []),
           ("language_patterns", .obj []),
           ("ad_ready_hooks", .obj [("problem_aware", .arr [.str "H"])]),
           ("body_copy_frameworks", .arr []),
           ("headline_formulas", .arr []),
           ("call_to_actions", .arr []),
           ("objection_handlers", .arr []),
           ("key_insights", .arr []),
           ("raw_data_summary", .obj
             [("total_items", .num 1), ("sources", .obj [("reddit", .num 1)]),
              ("date_range", .obj [("earliest", .str "2020"), ("latest", .str "2020")])])] := by
  refine ⟨rfl, rfl, ?_⟩
  exact (c4_amended [("pain_points", .arr [.obj [("pain_point", .str "P")]])]
    [("hooks", .obj [("problem_aware", .arr [.str "H"])])]
    (some [[("source", .str "reddit"), ("created_utc", .str "2020")]]) none "ts").1
    _ _ rfl rfl

/-- Elements delivered by `pyListIndex` come from the data list. -/
theorem pyListIndex_mem (data : List PyDict) (n : Int) (x : PyDict)
    (h : pyListIndex data n = .ok x) : x ∈ data := by
  unfold pyListIndex at h
  by_cases h0 : (0 : Int) ≤ n
  · rw [if_pos h0] at h
    cases hg : data.get? n.toNat with
    | none => rw [hg] at h; exact absurd h (by simp)
    | some y =>
      rw [hg] at h
      injection h with h
      subst h
      exact List.get?_mem hg
  · rw [if_neg h0] at h
    by_cases h1 : (0 : Int) ≤ (data.length : Int) + n
    · rw [if_pos h1] at h
      cases hg : data.get? ((data.length : Int) + n).toNat with
      | none => rw [hg] at h; exact absurd h (by simp)
      | some y =>
        rw [hg] at h
        injection h with h
        subst h
        exact List.get?_mem hg
    · rw [if_neg h1] at h
      exact absurd h (by simp)

/-- `bucketStep` preserves the invariant that every bucketed element is one
of the original data items. -/
theorem bucketStep_mem (data : List PyDict) (acc acc2 : List (String × List PyDict))
    (item : JsonV)
    (hP : ∀ s l, (s, l) ∈ acc → ∀ x ∈ l, x ∈ data)
    (h : bucketStep data acc item = .ok acc2) :
    ∀ s l, (s, l) ∈ acc2 → ∀ x ∈ l, x ∈ data := by
  unfold bucketStep at h
  cases h1 : pySubscript item "text_index" with
  | error u => simp [h1, Bind.bind, Except.bind] at h
  | ok idxV =>
  cases h2 : pySubscript item "stage" with
  | error u => simp [h1, h2, Bind.bind, Except.bind] at h
  | ok stageV =>
  cases h3 : pyIntOfIdx idxV with
  | error u => simp [h1, h2, h3, Bind.bind, Except.bind] at h
  | ok n =>
  simp only [h1, h2, h3, Bind.bind, Except.bind] at h
  by_cases hlt : n < (data.length : Int)
  · rw [if_pos hlt] at h
    cases stageV with
    | str s0 =>
      dsimp only at h
      by_cases hks : s0 ∈ awareness_stage_keys
      · rw [if_pos hks] at h
        cases h4 : pyListIndex data n with
        | error u => simp [h4, Bind.bind, Except.bind] at h
        | ok x =>
          simp only [h4, Bind.bind, Except.bind, pure, Except.pure] at h
          injection h with h
          subst h
          intro s l hmem y hy
          unfold catAppend at hmem
          obtain ⟨⟨s1, l1⟩, hp1, hfp⟩ := List.mem_map.mp hmem
          by_cases hs1 : s1 = s0
          · rw [if_pos hs1] at hfp
            injection hfp with e1 e2
            rcases List.mem_append.mp (e2 ▸ hy) with hy1 | hy1
            · exact hP s1 l1 hp1 y hy1
            · rw [List.mem_singleton.mp hy1]
              exact pyListIndex_mem data n x h4
          · rw [if_neg hs1] at hfp
            injection hfp with e1 e2
            exact hP s1 l1 hp1 y (e2 ▸ hy)
      · rw [if_neg hks] at h
        injection h with h
        subst h
        exact hP
    | null =>
      dsimp only at h
      injection h with h
      subst h
      exact hP
    | bool b =>
      dsimp only at h
      injection h with h
      subst h
      exact hP
    | num k =>
      dsimp only at h
      injection h with h
      subst h
      exact hP
    | arr xs => simp at h
    | obj fs => simp at h
  · rw [if_neg hlt] at h
    injection h with h
    subst h
    exact hP

/-- `bucketAll` preserves the same invariant. -/
theorem bucketAll_mem (data : List PyDict) :
    ∀ (items : List JsonV) (acc acc2 : List (String × List PyDict)),
    (∀ s l, (s, l) ∈ acc → ∀ x ∈ l, x ∈ data) →
    bucketAll data items acc = .ok acc2 →
    ∀ s l, (s, l) ∈ acc2 → ∀ x ∈ l, x ∈ data := by
  intro items
  induction items with
  | nil =>
    intro acc acc2 hP h
    unfold bucketAll at h
    injection h with h
    subst h
    exact hP
  | cons it its ih =>
    intro acc acc2 hP h
    unfold bucketAll at h
    cases hstep : bucketStep data acc it with
    | error u => simp [hstep, Bind.bind, Except.bind] at h
    | ok accm =>
      simp only [hstep, Bind.bind, Except.bind] at h
      exact ih accm acc2 (bucketStep_mem data acc accm it hP hstep) h

/-- C3 counterexample: with two input items, the assignment
`text_index: -1, stage: unaware` is *not* dropped — Python's negative
indexing inserts the last item into the `unaware` bucket. -/
theorem c3_counterexample :
    categorize_by_awareness [[("text", .str "a")], [("text", .str "b")]] "text"
        (.ok "\x7b\"categorized\": [\x7b\"text_index\": -1, \"stage\": \"unaware\"\x7d]\x7d") =
      [("unaware", [[("text", .str "b")]]), ("problem_aware", []), ("solution_aware", []),
       ("product_aware", []), ("most_aware", [])] ∧
    categorize_by_awareness [[("text", .str "a")], [("text", .str "b")]] "text"
        (.ok "\x7b\"categorized\": [\x7b\"text_index\": -1, \"stage\": \"unaware\"\x7d]\x7d") ≠
      catInit :=
  ⟨rfl, by decide⟩

/-- C3 (amended): every bucketed element is one of the original data items
(no out-of-bounds insertion is possible); an assignment whose integer index
is ≥ the item count, or whose stage is a string outside the five keys, is
silently dropped; but a negative index passes the `idx < len(data)` guard and
resolves Python-style from the end of the list. -/
theorem c3_amended (data : List PyDict) (tf : String) (cr : Except String String) :
    (∀ s l, (s, l) ∈ categorize_by_awareness data tf cr → ∀ x ∈ l, x ∈ data) ∧
    (∀ acc item n sv, pySubscript item "text_index" = .ok (.num n) →
      pySubscript item "stage" = .ok sv → (data.length : Int) ≤ n →
      bucketStep data acc item = .ok acc) ∧
    (∀ acc item n s0, pySubscript item "text_index" = .ok (.num n) →
      pySubscript item "stage" = .ok (.str s0) → s0 ∉ awareness_stage_keys →
      bucketStep data acc item = .ok acc) := by
  refine ⟨?_, ?_, ?_⟩
  · intro s l hmem
    simp only [categorize_by_awareness] at hmem
    by_cases hT : ((data.filterMap (fun item => lookupFirst item tf)).take 50).isEmpty
    · rw [if_pos hT] at hmem
      simp at hmem
    · rw [if_neg hT] at hmem
      cases cr with
      | error e => simp at hmem
      | ok txt =>
        dsimp only at hmem
        cases hjl : json_loads txt with
        | none =>
          rw [hjl] at hmem
          simp at hmem
        | some result =>
          rw [hjl] at hmem
          cases result with
          | obj fs =>
            dsimp only at hmem
            cases hit : pyIterE (getD fs "categorized" (.arr [])) with
            | error u =>
              rw [hit] at hmem
              simp at hmem
            | ok elems =>
              rw [hit] at hmem
              dsimp only at hmem
              cases hba : bucketAll data elems catInit with
              | error u =>
                rw [hba] at hmem
                simp at hmem
              | ok categorized =>
                rw [hba] at hmem
                have hmem2 : (s, l) ∈ categorized := by simpa using hmem
                refine bucketAll_mem data elems catInit categorized ?_ hba s l hmem2
                intro s2 l2 hm2 x hx
                simp [catInit] at hm2
                rcases hm2 with ⟨-, h2⟩ | ⟨-, h2⟩ | ⟨-, h2⟩ | ⟨-, h2⟩ | ⟨-, h2⟩ <;>
                  (subst h2; simp at hx)
          | null => simp at hmem
          | bool b => simp at hmem
          | num k => simp at hmem
          | str s2 => simp at hmem
          | arr xs => simp at hmem
  · intro acc item n sv h1 h2 hge
    unfold bucketStep
    simp only [h1, h2, pyIntOfIdx, Bind.bind, Except.bind]
    rw [if_neg (by omega)]
    rfl
  · intro acc item n s0 h1 h2 hks
    unfold bucketStep
    simp only [h1, h2, pyIntOfIdx, Bind.bind, Except.bind]
    by_cases hlt : n < (data.length : Int)
    · rw [if_pos hlt]
      try dsimp only
      rw [if_neg hks]
      rfl
    · rw [if_neg hlt]
      rfl

/-- Witness for C3 (amended): a valid in-range assignment buckets an original
item, and concrete over-range / unknown-stage assignments leave the
accumulator unchanged. -/
theorem c3_amended_witness :
    [("text", .str "b")] ∈ ([[("text", .str "a")], [("text", .str "b")]] : List PyDict) ∧
    bucketStep [[("text", .str "a")], [("text", .str "b")]] catInit
        (.obj [("text_index", .num 99), ("stage", .str "unaware")]) = .ok catInit ∧
    bucketStep [[("text", .str "a")], [("text", .str "b")]] catInit
        (.obj [("text_index", .num 0), ("stage", .str "bogus")]) = .ok catInit := by
  obtain ⟨p1, p2, p3⟩ := c3_amended [[("text", .str "a")], [("text", .str "b")]] "text"
    (.ok "\x7b\"categorized\": [\x7b\"text_index\": 1, \"stage\": \"unaware\"\x7d]\x7d")
  refine ⟨?_, ?_, ?_⟩
  · exact p1 "unaware" [[("text", .str "b")]] (by decide) [("text", .str "b")] (by decide)
  · exact p2 catInit (.obj [("text_index", .num 99), ("stage", .str "unaware")]) 99
      (.str "unaware") rfl rfl (by decide)
  · exact p3 catInit (.obj [("text_index", .num 0), ("stage", .str "bogus")]) 0 "bogus"
      rfl rfl (by decide)

/-- On simple children, the code's one-level comment/reply extraction agrees
with the spec's recursive extraction. -/
theorem childTexts_eq (cs : List JsonV) (h : ∀ c ∈ cs, simpleChild c = true) :
    cs.filterMap (fun c => match c with | .obj cf => lookupFirst cf "text" | _ => none) =
      specTextsList cs := by
  induction cs with
  | nil => simp [specTextsList]
  | cons c cs ih =>
    have hc := h c (by simp)
    have hrest : ∀ c2 ∈ cs, simpleChild c2 = true := fun c2 hm => h c2 (by simp [hm])
    rw [List.filterMap_cons]
    cases c with
    | obj cf =>
      simp only [simpleChild, Bool.and_eq_true] at hc
      obtain ⟨⟨⟨htext, htitle⟩, hcom⟩, hrep⟩ := hc
      have ht2 : lookupFirst cf "title" = none := Option.isNone_iff_eq_none.mp htitle
      have hc2 : lookupFirst cf "comments" = none := Option.isNone_iff_eq_none.mp hcom
      have hr2 : lookupFirst cf "replies" = none := Option.isNone_iff_eq_none.mp hrep
      cases hct : lookupFirst cf "text" with
      | some t =>
        rw [hct] at htext
        simp at htext
        simp [specTextsList, specTexts, childArr, hct, ht2, hc2, hr2, htext, ih hrest]
      | none =>
        simp [specTextsList, specTexts, childArr, hct, ht2, hc2, hr2, ih hrest, pyTruthy]
    | null => simp [specTextsList, specTexts, ih hrest]
    | bool b => simp [specTextsList, specTexts, ih hrest]
    | num n => simp [specTextsList, specTexts, ih hrest]
    | str s => simp [specTextsList, specTexts, ih hrest]
    | arr xs => simp [specTextsList, specTexts, ih hrest]

/-- On a well-formed record, the corpus builder's per-record extraction
agrees with the spec's. -/
theorem record_spec_eq (item : PyDict) (h : wellFormedRecord item = true) :
    record_texts item = specTexts (.obj item) := by
  simp only [wellFormedRecord, Bool.and_eq_true] at h
  obtain ⟨⟨htitle, hcom⟩, hrep⟩ := h
  have e1 : (match lookupFirst item "text" with
      | some v => if pyTruthy v then [v] else []
      | none => ([] : List JsonV)) =
      (if pyTruthy ((lookupFirst item "text").getD .null)
        then [(lookupFirst item "text").getD .null] else []) := by
    cases hb : lookupFirst item "text" <;> simp [pyTruthy]
  have e2 : (match lookupFirst item "title" with
      | some v => if pyTruthy v then [v] else []
      | none => ([] : List JsonV)) =
      (match lookupFirst item "title" with
       | some t => if pyTruthy t ∧ t ≠ (lookupFirst item "text").getD .null then [t] else []
       | none => []) := by
    cases ht : lookupFirst item "title" with
    | none => rfl
    | some t =>
      rw [ht] at htitle
      by_cases htr : pyTruthy t
      · simp only [htr, Bool.not_true, Bool.false_or, bne_iff_ne] at htitle
        simp [htr, htitle]
      · simp [htr]
  have e3 : (match lookupFirst item "comments" with
      | some (.arr cs) =>
        cs.filterMap (fun c => match c with | .obj cf => lookupFirst cf "text" | _ => none)
      | _ => ([] : List JsonV)) = specTextsList (childArr item "comments") := by
    unfold childOk at hcom
    cases hcm : lookupFirst item "comments" with
    | none => simp [childArr, hcm, specTextsList]
    | some v =>
      rw [hcm] at hcom
      cases v with
      | arr cs =>
        dsimp only
        rw [childTexts_eq cs (by simpa [List.all_eq_true] using hcom)]
        simp [childArr, hcm]
      | null => simp [childArr, hcm, specTextsList]
      | bool b => simp [childArr, hcm, specTextsList]
      | num n => simp [childArr, hcm, specTextsList]
      | str s => simp [childArr, hcm, specTextsList]
      | obj fs => simp [childArr, hcm, specTextsList]
  have e4 : (match lookupFirst item "replies" with
      | some (.arr rs) =>
        rs.filterMap (fun r => match r with | .obj rf => lookupFirst rf "text" | _ => none)
      | _ => ([] : List JsonV)) = specTextsList (childArr item "replies") := by
    unfold childOk at hrep
    cases hcm : lookupFirst item "replies" with
    | none => simp [childArr, hcm, specTextsList]
    | some v =>
      rw [hcm] at hrep
      cases v with
      | arr rs =>
        dsimp only
        rw [childTexts_eq rs (by simpa [List.all_eq_true] using hrep)]
        simp [childArr, hcm]
      | null => simp [childArr, hcm, specTextsList]
      | bool b => simp [childArr, hcm, specTextsList]
      | num n => simp [childArr, hcm, specTextsList]
      | str s => simp [childArr, hcm, specTextsList]
      | obj fs => simp [childArr, hcm, specTextsList]
  unfold record_texts
  rw [specTexts, e1, e2, e3, e4]

/-- C2 (amended): per record, in order, the builder emits the body text if
non-empty, then the title if non-empty — without the distinctness check —
then the `text` field of each direct comment dict and each direct reply dict
(one level only, taken even when empty); it coincides with the spec's corpus
contract on records whose truthy titles differ from their bodies and whose
nested children carry non-empty text and no further nesting. -/
theorem c2_amended (data : List PyDict)
    (h : ∀ item ∈ data, wellFormedRecord item = true) :
    extract_texts data = spec_corpus data := by
  unfold extract_texts spec_corpus
  induction data with
  | nil => rfl
  | cons item rest ih =>
    simp only [List.map_cons, List.flatten_cons]
    rw [record_spec_eq item (h item (by simp)), ih (fun i hi => h i (by simp [hi]))]

/-- Witness for C2 (amended) on a record with distinct body/title and one
simple comment and reply. -/
theorem c2_amended_witness :
    (∀ item ∈ ([[("text", .str "A"), ("title", .str "B"),
        ("comments", .arr [.obj [("text", .str "C")]]),
        ("replies", .arr [.obj [("text", .str "D")]])]] : List PyDict),
      wellFormedRecord item = true) ∧
    extract_texts [[("text", .str "A"), ("title", .str "B"),
        ("comments", .arr [.obj [("text", .str "C")]]),
        ("replies", .arr [.obj [("text", .str "D")]])]] =
      spec_corpus [[("text", .str "A"), ("title", .str "B"),
        ("comments", .arr [.obj [("text", .str "C")]]),
        ("replies", .arr [.obj [("text", .str "D")]])]] ∧
    extract_texts [[("text", .str "A"), ("title", .str "B"),
        ("comments", .arr [.obj [("text", .str "C")]]),
        ("replies", .arr [.obj [("text", .str "D")]])]] =
      [.str "A", .str "B", .str "C", .str "D"] := by
  have hw : ∀ item ∈ ([[("text", .str "A"), ("title", .str "B"),
      ("comments", .arr [.obj [("text", .str "C")]]),
      ("replies", .arr [.obj [("text", .str "D")]])]] : List PyDict),
      wellFormedRecord item = true := by decide
  exact ⟨hw, c2_amended _ hw, rfl⟩

/-- C2 counterexample: one record with title equal to its body, an
empty-text comment, and a comment carrying a nested reply.  The code emits
the duplicate title and the empty text and misses the nested reply; the
spec's contract emits neither duplicate nor empty text but includes the
nested reply. -/
theorem c2_counterexample :
    extract_texts [[("text", .str "A"), ("title", .str "A"),
        ("comments", .arr [.obj [("text", .str "")],
          .obj [("text", .str "C"), ("replies", .arr [.obj [("text", .str "B")]])]])]] =
      [.str "A", .str "A", .str "", .str "C"] ∧
    spec_corpus [[("text", .str "A"), ("title", .str "A"),
        ("comments", .arr [.obj [("text", .str "")],
          .obj [("text", .str "C"), ("replies", .arr [.obj [("text", .str "B")]])]])]] =
      [.str "A", .str "C", .str "B"] ∧
    extract_texts [[("text", .str "A"), ("title", .str "A"),
        ("comments", .arr [.obj [("text", .str "")],
          .obj [("text", .str "C"), ("replies", .arr [.obj [("text", .str "B")]])]])]] ≠
      spec_corpus [[("text", .str "A"), ("title", .str "A"),
        ("comments", .arr [.obj [("text", .str "")],
          .obj [("text", .str "C"), ("replies", .arr [.obj [("text", .str "B")]])]])]] := by
  have e1 : extract_texts [[("text", .str "A"), ("title", .str "A"),
      ("comments", .arr [.obj [("text", .str "")],
        .obj [("text", .str "C"), ("replies", .arr [.obj [("text", .str "B")]])]])]] =
      [.str "A", .str "A", .str "", .str "C"] := rfl
  have e2 : spec_corpus [[("text", .str "A"), ("title", .str "A"),
      ("comments", .arr [.obj [("text", .str "")],
        .obj [("text", .str "C"), ("replies", .arr [.obj [("text", .str "B")]])]])]] =
      [.str "A", .str "C", .str "B"] := by
    simp [spec_corpus, specTexts, specTextsList, childArr, lookupFirst, pyTruthy]
  refine ⟨e1, e2, ?_⟩
  rw [e1, e2]
  simp

/-- Splitting a successful `Except` bind. -/
theorem except_bind_ok {a b : Type} (e : Except Unit a) (f : a → Except Unit b) (r : b)
    (h : e >>= f = .ok r) : ∃ v, e = .ok v ∧ f v = .ok r := by
  cases e with
  | error u => simp [Bind.bind, Except.bind] at h
  | ok v => exact ⟨v, rfl, by simpa [Bind.bind, Except.bind] using h⟩

/-- A produced line whose first character is not `#` carries no section
header, whatever follows. -/
theorem mdHeaderOf_pre (pre x : String) (c : Char) (r : List Char)
    (hp : pre.data = c :: r) (hc : c ≠ '#') : mdHeaderOf (pre ++ x) = none := by
  unfold mdHeaderOf
  rw [String.data_append, hp, List.cons_append]
  generalize r ++ x.data = rest
  cases rest with
  | nil => simp
  | cons c2 t2 =>
    cases t2 with
    | nil => simp [hc]
    | cons c3 t3 => simp [hc]

/-- A produced line whose first three characters are not `## ` carries no
section header; this covers the `###` subsection lines. -/
theorem mdHeaderOf_hash3 (pre x : String) (c1 c2 c3 : Char) (r : List Char)
    (hp : pre.data = c1 :: c2 :: c3 :: r) (hcond : ¬(c1 = '#' ∧ c2 = '#' ∧ c3 = ' ')) :
    mdHeaderOf (pre ++ x) = none := by
  unfold mdHeaderOf
  rw [String.data_append, hp]
  simp only [List.cons_append]
  have hfalse : (decide (c1 = '#') && decide (c2 = '#') && decide (c3 = ' ')) = false := by
    rcases Bool.eq_false_or_eq_true (decide (c1 = '#')) with h1 | h1 <;>
    rcases Bool.eq_false_or_eq_true (decide (c2 = '#')) with h2 | h2 <;>
    rcases Bool.eq_false_or_eq_true (decide (c3 = ' ')) with h3 | h3 <;>
      simp_all [decide_eq_true_eq]
  simp [hfalse]

/-- Sequenced loop bodies whose fragments carry no headers produce no
headers (generic in the header-extraction function). -/
theorem blocksE_flat_nil {a b : Type} (g : List b → List String)
    (f : a → Except Unit (List b))
    (hgapp : ∀ xs ys, g (xs ++ ys) = g xs ++ g ys) (hgnil : g [] = [])
    (hf : ∀ x ls, f x = .ok ls → g ls = []) :
    ∀ (l : List a) (out : List b), blocksE f l = .ok out → g out = [] := by
  intro l
  induction l with
  | nil =>
    intro out h
    unfold blocksE at h
    injection h with h
    subst h
    exact hgnil
  | cons x xs ih =>
    intro out h
    unfold blocksE at h
    obtain ⟨blk, h1, h⟩ := except_bind_ok _ _ _ h
    obtain ⟨rest, h2, h⟩ := except_bind_ok _ _ _ h
    injection h with h
    subst h
    rw [hgapp, hf x blk h1, ih rest h2]
    rfl

/-- Mapped loop lines with header-free bodies contribute no headers. -/
theorem fm_map_none {a : Type} (g : a → String) (l : List a)
    (hg : ∀ x, mdHeaderOf (g x) = none) :
    List.filterMap mdHeaderOf (l.map g) = [] := by
  apply List.filterMap_eq_nil_iff.mpr
  intro s hs
  obtain ⟨q, -, rfl⟩ := List.mem_map.mp hs
  exact hg q

/-- No pain-point block line carries a section header. -/
theorem mdPainBlock_h (p : Nat × JsonV) (ls : List String)
    (h : mdPainBlock p = .ok ls) : ls.filterMap mdHeaderOf = [] := by
  unfold mdPainBlock at h
  obtain ⟨pp, h1, h⟩ := except_bind_ok _ _ _ h
  obtain ⟨sev, h2, h⟩ := except_bind_ok _ _ _ h
  obtain ⟨qv, h3, h⟩ := except_bind_ok _ _ _ h
  obtain ⟨quotes, h4, h⟩ := except_bind_ok _ _ _ h
  injection h with h
  subst h
  rw [List.filterMap_append, List.filterMap_append]
  rw [fm_map_none _ quotes (fun q => mdHeaderOf_pre "> " (pyStr q) '>' _ rfl (by decide))]
  have l1 : mdHeaderOf ("### " ++ toString p.1 ++ ". " ++ pyStr pp) = none :=
    mdHeaderOf_hash3 ("### " ++ toString p.1 ++ ". ") (pyStr pp) '#' '#' '#' _ rfl (by decide)
  have l2 : mdHeaderOf ("**Severity:** " ++ pyStr sev) = none :=
    mdHeaderOf_pre "**Severity:** " (pyStr sev) '*' _ rfl (by decide)
  simp [List.filterMap_cons, l1, l2,
        show mdHeaderOf "\n**Customer Quotes:**" = none from rfl,
        show mdHeaderOf "" = none from rfl]

/-- No emotional-pattern block line carries a section header. -/
theorem mdEmotionBlock_h (e : JsonV) (ls : List String)
    (h : mdEmotionBlock e = .ok ls) : ls.filterMap mdHeaderOf = [] := by
  unfold mdEmotionBlock at h
  obtain ⟨nv, h1, h⟩ := except_bind_ok _ _ _ h
  obtain ⟨t, h2, h⟩ := except_bind_ok _ _ _ h
  obtain ⟨fr, h3, h⟩ := except_bind_ok _ _ _ h
  obtain ⟨an, h4, h⟩ := except_bind_ok _ _ _ h
  obtain ⟨qv, h5, h⟩ := except_bind_ok _ _ _ h
  obtain ⟨quotes, h6, h⟩ := except_bind_ok _ _ _ h
  injection h with h
  subst h
  rw [List.filterMap_append, List.filterMap_append]
  rw [fm_map_none _ quotes (fun q => mdHeaderOf_pre "> " (pyStr q) '>' _ rfl (by decide))]
  have l1 : mdHeaderOf ("### " ++ t) = none :=
    mdHeaderOf_hash3 "### " t '#' '#' '#' _ rfl (by decide)
  have l2 : mdHeaderOf ("**Frequency:** " ++ pyStr fr) = none :=
    mdHeaderOf_pre "**Frequency:** " (pyStr fr) '*' _ rfl (by decide)
  have l3 : mdHeaderOf ("**Advertising Angle:** " ++ pyStr an) = none :=
    mdHeaderOf_pre "**Advertising Angle:** " (pyStr an) '*' _ rfl (by decide)
  simp [List.filterMap_cons, l1, l2, l3,
        show mdHeaderOf "\n**Example Quotes:**" = none from rfl,
        show mdHeaderOf "" = none from rfl]

/-- No awareness-stage block line carries a section header. -/
theorem mdStageBlock_h (aw : JsonV) (p : String × String) (ls : List String)
    (h : mdStageBlock aw p = .ok ls) : ls.filterMap mdHeaderOf = [] := by
  unfold mdStageBlock at h
  obtain ⟨sd, h1, h⟩ := except_bind_ok _ _ _ h
  by_cases ht : pyTruthy sd
  · rw [if_pos ht] at h
    obtain ⟨iv, h2, h⟩ := except_bind_ok _ _ _ h
    obtain ⟨ind, h3, h⟩ := except_bind_ok _ _ _ h
    obtain ⟨qv, h4, h⟩ := except_bind_ok _ _ _ h
    obtain ⟨quotes, h5, h⟩ := except_bind_ok _ _ _ h
    injection h with h
    subst h
    rw [List.filterMap_append, List.filterMap_append, List.filterMap_append,
        List.filterMap_append]
    rw [fm_map_none _ ind (fun i => mdHeaderOf_pre "- " (pyStr i) '-' _ rfl (by decide))]
    rw [fm_map_none _ quotes (fun q => mdHeaderOf_pre "> " (pyStr q) '>' _ rfl (by decide))]
    have l1 : mdHeaderOf ("### " ++ p.2) = none :=
      mdHeaderOf_hash3 "### " p.2 '#' '#' '#' _ rfl (by decide)
    simp [List.filterMap_cons, l1,
          show mdHeaderOf "\n**Key Phrases:**" = none from rfl,
          show mdHeaderOf "\n**Example Quotes:**" = none from rfl,
          show mdHeaderOf "" = none from rfl]
  · rw [if_neg ht] at h
    injection h with h
    subst h
    rfl

/-- No hook block line carries a section header. -/
theorem mdHookBlock_h (p : String × JsonV) (ls : List String)
    (h : mdHookBlock p = .ok ls) : ls.filterMap mdHeaderOf = [] := by
  unfold mdHookBlock at h
  obtain ⟨hooks, h1, h⟩ := except_bind_ok _ _ _ h
  injection h with h
  subst h
  rw [List.filterMap_append, List.filterMap_append]
  rw [fm_map_none _ hooks (fun x => mdHeaderOf_pre "- " (pyStr x) '-' _ rfl (by decide))]
  have l1 : mdHeaderOf ("### " ++ pyTitle (p.1.replace "_" " ")) = none :=
    mdHeaderOf_hash3 "### " (pyTitle (p.1.replace "_" " ")) '#' '#' '#' _ rfl (by decide)
  simp [List.filterMap_cons, l1, show mdHeaderOf "" = none from rfl]

/-- No body-copy framework block line carries a section header. -/
theorem mdFrameworkBlock_h (fw : JsonV) (ls : List String)
    (h : mdFrameworkBlock fw = .ok ls) : ls.filterMap mdHeaderOf = [] := by
  unfold mdFrameworkBlock at h
  obtain ⟨nv, h1, h⟩ := except_bind_ok _ _ _ h
  obtain ⟨ta, h2, h⟩ := except_bind_ok _ _ _ h
  obtain ⟨ex, h3, h⟩ := except_bind_ok _ _ _ h
  injection h with h
  subst h
  have l1 : mdHeaderOf ("### " ++ pyStr nv) = none :=
    mdHeaderOf_hash3 "### " (pyStr nv) '#' '#' '#' _ rfl (by decide)
  have l2 : mdHeaderOf ("**Target Awareness:** " ++ pyStr ta) = none :=
    mdHeaderOf_pre "**Target Awareness:** " (pyStr ta) '*' _ rfl (by decide)
  have l3 : mdHeaderOf ("> " ++ pyStr ex) = none :=
    mdHeaderOf_pre "> " (pyStr ex) '>' _ rfl (by decide)
  simp [List.filterMap_cons, l1, l2, l3,
        show mdHeaderOf "\n**Example:**" = none from rfl,
        show mdHeaderOf "" = none from rfl]

/-- No objection-handler block line carries a section header. -/
theorem mdObjBlock_h (o : JsonV) (ls : List String)
    (h : mdObjBlock o = .ok ls) : ls.filterMap mdHeaderOf = [] := by
  unfold mdObjBlock at h
  obtain ⟨ob, h1, h⟩ := except_bind_ok _ _ _ h
  obtain ⟨rp, h2, h⟩ := except_bind_ok _ _ _ h
  injection h with h
  subst h
  have l1 : mdHeaderOf ("**Objection:** " ++ pyStr ob) = none :=
    mdHeaderOf_pre "**Objection:** " (pyStr ob) '*' _ rfl (by decide)
  have l2 : mdHeaderOf ("**Response:** " ++ pyStr rp) = none :=
    mdHeaderOf_pre "**Response:** " (pyStr rp) '*' _ rfl (by decide)
  simp [List.filterMap_cons, l1, l2, show mdHeaderOf "" = none from rfl]

/-- The prose summary section renders exactly the `Executive Summary`
header. -/
theorem mdSummarySection_h (m : PyDict) (ls : List String)
    (h : mdSummarySection m = .ok ls) :
    ls.filterMap mdHeaderOf = ["Executive Summary"] := by
  unfold mdSummarySection at h
  obtain ⟨tp, h1, h⟩ := except_bind_ok _ _ _ h
  obtain ⟨de, h2, h⟩ := except_bind_ok _ _ _ h
  obtain ⟨pd, h3, h⟩ := except_bind_ok _ _ _ h
  obtain ⟨te, h4, h⟩ := except_bind_ok _ _ _ h
  injection h with h
  subst h
  have l1 : mdHeaderOf ("- **Top Pain Point:** " ++ pyStr tp) = none :=
    mdHeaderOf_pre "- **Top Pain Point:** " (pyStr tp) '-' _ rfl (by decide)
  have l2 : mdHeaderOf ("- **Dominant Emotion:** " ++ pyStr de) = none :=
    mdHeaderOf_pre "- **Dominant Emotion:** " (pyStr de) '-' _ rfl (by decide)
  have l3 : mdHeaderOf ("- **Primary Desire:** " ++ pyStr pd) = none :=
    mdHeaderOf_pre "- **Primary Desire:** " (pyStr pd) '-' _ rfl (by decide)
  have l4 : mdHeaderOf ("- **Total Patterns Identified:** " ++ pyStr te) = none :=
    mdHeaderOf_pre "- **Total Patterns Identified:** " (pyStr te) '-' _ rfl (by decide)
  simp [List.filterMap_cons, l1, l2, l3, l4,
        show mdHeaderOf "## Executive Summary\n" = some "Executive Summary" from rfl,
        show mdHeaderOf "" = none from rfl]

/-- The prose insights section renders exactly the `Key Insights` header. -/
theorem mdInsightsSection_h (m : PyDict) (ls : List String)
    (h : mdInsightsSection m = .ok ls) :
    ls.filterMap mdHeaderOf = ["Key Insights"] := by
  unfold mdInsightsSection at h
  obtain ⟨xs, h1, h⟩ := except_bind_ok _ _ _ h
  injection h with h
  subst h
  rw [List.filterMap_append, List.filterMap_append]
  rw [fm_map_none _ xs (fun i => mdHeaderOf_pre "- " (pyStr i) '-' _ rfl (by decide))]
  simp [List.filterMap_cons,
        show mdHeaderOf "## Key Insights\n" = some "Key Insights" from rfl,
        show mdHeaderOf "" = none from rfl]

/-- The prose pain-point section renders exactly the `Pain Points` header. -/
theorem mdPainSection_h (m : PyDict) (ls : List String)
    (h : mdPainSection m = .ok ls) :
    ls.filterMap mdHeaderOf = ["Pain Points"] := by
  unfold mdPainSection at h
  obtain ⟨pains, h1, h⟩ := except_bind_ok _ _ _ h
  obtain ⟨blocks, h2, h⟩ := except_bind_ok _ _ _ h
  injection h with h
  subst h
  rw [List.filterMap_append]
  rw [blocksE_flat_nil (List.filterMap mdHeaderOf) mdPainBlock
        (fun xs ys => List.filterMap_append xs ys mdHeaderOf) rfl mdPainBlock_h _ blocks h2]
  simp [List.filterMap_cons,
        show mdHeaderOf "## Pain Points\n" = some "Pain Points" from rfl]

/-- The prose emotional-pattern section renders exactly the
`Emotional Patterns` header. -/
theorem mdEmotionSection_h (m : PyDict) (ls : List String)
    (h : mdEmotionSection m = .ok ls) :
    ls.filterMap mdHeaderOf = ["Emotional Patterns"] := by
  unfold mdEmotionSection at h
  obtain ⟨es, h1, h⟩ := except_bind_ok _ _ _ h
  obtain ⟨blocks, h2, h⟩ := except_bind_ok _ _ _ h
  injection h with h
  subst h
  rw [List.filterMap_append]
  rw [blocksE_flat_nil (List.filterMap mdHeaderOf) mdEmotionBlock
        (fun xs ys => List.filterMap_append xs ys mdHeaderOf) rfl mdEmotionBlock_h _ blocks h2]
  simp [List.filterMap_cons,
        show mdHeaderOf "## Emotional Patterns\n" = some "Emotional Patterns" from rfl]

/-- The prose awareness section renders exactly the
`Customer Awareness Stages` header. -/
theorem mdAwarenessSection_h (m : PyDict) (ls : List String)
    (h : mdAwarenessSection m = .ok ls) :
    ls.filterMap mdHeaderOf = ["Customer Awareness Stages"] := by
  unfold mdAwarenessSection at h
  obtain ⟨blocks, h2, h⟩ := except_bind_ok _ _ _ h
  injection h with h
  subst h
  rw [List.filterMap_append]
  rw [blocksE_flat_nil (List.filterMap mdHeaderOf)
        (mdStageBlock (getD m "awareness_stages" (.obj [])))
        (fun xs ys => List.filterMap_append xs ys mdHeaderOf) rfl
        (mdStageBlock_h (getD m "awareness_stages" (.obj []))) _ blocks h2]
  simp [List.filterMap_cons,
        show mdHeaderOf "## Customer Awareness Stages\n" =
          some "Customer Awareness Stages" from rfl]

/-- The prose hooks section renders exactly the `Ad-Ready Hooks` header. -/
theorem mdHooksSection_h (m : PyDict) (ls : List String)
    (h : mdHooksSection m = .ok ls) :
    ls.filterMap mdHeaderOf = ["Ad-Ready Hooks"] := by
  unfold mdHooksSection at h
  cases hobj : getD m "ad_ready_hooks" (.obj []) with
  | obj fs =>
    rw [hobj] at h
    dsimp only at h
    obtain ⟨blocks, h2, h⟩ := except_bind_ok _ _ _ h
    injection h with h
    subst h
    rw [List.filterMap_append]
    rw [blocksE_flat_nil (List.filterMap mdHeaderOf) mdHookBlock
          (fun xs ys => List.filterMap_append xs ys mdHeaderOf) rfl mdHookBlock_h _ blocks h2]
    simp [List.filterMap_cons,
          show mdHeaderOf "## Ad-Ready Hooks\n" = some "Ad-Ready Hooks" from rfl]
  | null => rw [hobj] at h; simp at h
  | bool b => rw [hobj] at h; simp at h
  | num n => rw [hobj] at h; simp at h
  | str s => rw [hobj] at h; simp at h
  | arr xs => rw [hobj] at h; simp at h

/-- The prose framework section renders exactly the `Body Copy Frameworks`
header. -/
theorem mdFrameworksSection_h (m : PyDict) (ls : List String)
    (h : mdFrameworksSection m = .ok ls) :
    ls.filterMap mdHeaderOf = ["Body Copy Frameworks"] := by
  unfold mdFrameworksSection at h
  obtain ⟨fws, h1, h⟩ := except_bind_ok _ _ _ h
  obtain ⟨blocks, h2, h⟩ := except_bind_ok _ _ _ h
  injection h with h
  subst h
  rw [List.filterMap_append]
  rw [blocksE_flat_nil (List.filterMap mdHeaderOf) mdFrameworkBlock
        (fun xs ys => List.filterMap_append xs ys mdHeaderOf) rfl mdFrameworkBlock_h _ blocks h2]
  simp [List.filterMap_cons,
        show mdHeaderOf "## Body Copy Frameworks\n" = some "Body Copy Frameworks" from rfl]

/-- The prose call-to-action section renders exactly the
`Call to Action Suggestions` header. -/
theorem mdCtaSection_h (m : PyDict) (ls : List String)
    (h : mdCtaSection m = .ok ls) :
    ls.filterMap mdHeaderOf = ["Call to Action Suggestions"] := by
  unfold mdCtaSection at h
  obtain ⟨xs, h1, h⟩ := except_bind_ok _ _ _ h
  injection h with h
  subst h
  rw [List.filterMap_append, List.filterMap_append]
  rw [fm_map_none _ xs (fun c => mdHeaderOf_pre "- " (pyStr c) '-' _ rfl (by decide))]
  simp [List.filterMap_cons,
        show mdHeaderOf "## Call to Action Suggestions\n" =
          some "Call to Action Suggestions" from rfl,
        show mdHeaderOf "" = none from rfl]

/-- The prose objection section renders exactly the `Objection Handlers`
header. -/
theorem mdObjectionSection_h (m : PyDict) (ls : List String)
    (h : mdObjectionSection m = .ok ls) :
    ls.filterMap mdHeaderOf = ["Objection Handlers"] := by
  unfold mdObjectionSection at h
  obtain ⟨os, h1, h⟩ := except_bind_ok _ _ _ h
  obtain ⟨blocks, h2, h⟩ := except_bind_ok _ _ _ h
  injection h with h
  subst h
  rw [List.filterMap_append]
  rw [blocksE_flat_nil (List.filterMap mdHeaderOf) mdObjBlock
        (fun xs ys => List.filterMap_append xs ys mdHeaderOf) rfl mdObjBlock_h _ blocks h2]
  simp [List.filterMap_cons,
        show mdHeaderOf "## Objection Handlers\n" = some "Objection Handlers" from rfl]

/-- The prose encoding renders exactly the nine fixed section headers in
order, for every message map it renders at all. -/
theorem generate_markdown_lines_h (m : PyDict) (ls : List String)
    (h : generate_markdown_lines m = .ok ls) :
    ls.filterMap mdHeaderOf = md_section_header_list := by
  unfold generate_markdown_lines at h
  obtain ⟨s1, e1, h⟩ := except_bind_ok _ _ _ h
  obtain ⟨s2, e2, h⟩ := except_bind_ok _ _ _ h
  obtain ⟨s3, e3, h⟩ := except_bind_ok _ _ _ h
  obtain ⟨s4, e4, h⟩ := except_bind_ok _ _ _ h
  obtain ⟨s5, e5, h⟩ := except_bind_ok _ _ _ h
  obtain ⟨s6, e6, h⟩ := except_bind_ok _ _ _ h
  obtain ⟨s7, e7, h⟩ := except_bind_ok _ _ _ h
  obtain ⟨s8, e8, h⟩ := except_bind_ok _ _ _ h
  obtain ⟨s9, e9, h⟩ := except_bind_ok _ _ _ h
  injection h with h
  subst h
  rw [List.filterMap_append, List.filterMap_append, List.filterMap_append,
      List.filterMap_append, List.filterMap_append, List.filterMap_append,
      List.filterMap_append, List.filterMap_append, List.filterMap_append]
  rw [mdSummarySection_h m s1 e1, mdInsightsSection_h m s2 e2, mdPainSection_h m s3 e3,
      mdEmotionSection_h m s4 e4, mdAwarenessSection_h m s5 e5, mdHooksSection_h m s6 e6,
      mdFrameworksSection_h m s7 e7, mdCtaSection_h m s8 e8, mdObjectionSection_h m s9 e9]
  have lg : mdHeaderOf ("\nGenerated: " ++ pyStr (getD m "generated_at" (.str "N/A")) ++ "\n") =
      none :=
    mdHeaderOf_pre ("\nGenerated: " ++ pyStr (getD m "generated_at" (.str "N/A"))) "\n"
      '\n' _ rfl (by decide)
  simp [List.filterMap_cons, lg, md_section_header_list,
        show mdHeaderOf "# Customer Language Message Map" = none from rfl]

theorem chunkH2s_append (a b : List HChunk) :
    chunkH2s (a ++ b) = chunkH2s a ++ chunkH2s b := by
  simp [chunkH2s, List.filterMap_append]

/-- Flattened loop chunks without header chunks carry no headers. -/
theorem chunkH2s_flat_map_nil {a : Type} (f : a → List HChunk) (l : List a)
    (hf : ∀ x, chunkH2s (f x) = []) : chunkH2s (l.map f).flatten = [] := by
  induction l with
  | nil => rfl
  | cons x xs ih =>
    simp only [List.map_cons, List.flatten_cons]
    rw [chunkH2s_append, hf, ih]
    rfl

/-- Pain-point blocks of the styled encoding carry no section header. -/
theorem htmlPainBlock_h2 (pain : JsonV) (cs : List HChunk)
    (h : htmlPainBlock pain = .ok cs) : chunkH2s cs = [] := by
  unfold htmlPainBlock at h
  obtain ⟨sev, h1, h⟩ := except_bind_ok _ _ _ h
  obtain ⟨pp, h2, h⟩ := except_bind_ok _ _ _ h
  obtain ⟨qv, h3, h⟩ := except_bind_ok _ _ _ h
  obtain ⟨quotes, h4, h⟩ := except_bind_ok _ _ _ h
  injection h with h
  subst h
  rw [chunkH2s_append, chunkH2s_append]
  rw [chunkH2s_flat_map_nil
        (fun q => [.lit "            <div class=\"quote\">", .dyn (pyStr q), .lit "</div>\n"])
        quotes (fun q => rfl)]
  rfl

/-- Hook blocks of the styled encoding carry no section header. -/
theorem htmlHookBlock_h2 (p : String × JsonV) (cs : List HChunk)
    (h : htmlHookBlock p = .ok cs) : chunkH2s cs = [] := by
  unfold htmlHookBlock at h
  obtain ⟨hooks, h1, h⟩ := except_bind_ok _ _ _ h
  injection h with h
  subst h
  rw [chunkH2s_append]
  rw [chunkH2s_flat_map_nil
        (fun h => [.lit "        <div class=\"hook\">", .dyn (pyStr h), .lit "</div>\n"])
        hooks (fun q => rfl)]
  rfl

/-- Framework blocks of the styled encoding carry no section header. -/
theorem htmlFrameworkBlock_h2 (fw : JsonV) (cs : List HChunk)
    (h : htmlFrameworkBlock fw = .ok cs) : chunkH2s cs = [] := by
  unfold htmlFrameworkBlock at h
  obtain ⟨nv, h1, h⟩ := except_bind_ok _ _ _ h
  obtain ⟨ta, h2, h⟩ := except_bind_ok _ _ _ h
  obtain ⟨ex, h3, h⟩ := except_bind_ok _ _ _ h
  injection h with h
  subst h
  rfl

/-- The styled head chunk renders the `Executive Summary` and `Key Insights`
headers. -/
theorem htmlHeadChunks_h2 (m : PyDict) (cs : List HChunk)
    (h : htmlHeadChunks m = .ok cs) :
    chunkH2s cs = ["Executive Summary", "Key Insights"] := by
  unfold htmlHeadChunks at h
  obtain ⟨tp, h1, h⟩ := except_bind_ok _ _ _ h
  obtain ⟨de, h2, h⟩ := except_bind_ok _ _ _ h
  obtain ⟨pd, h3, h⟩ := except_bind_ok _ _ _ h
  obtain ⟨te, h4, h⟩ := except_bind_ok _ _ _ h
  obtain ⟨tpn, h5, h⟩ := except_bind_ok _ _ _ h
  obtain ⟨td, h6, h⟩ := except_bind_ok _ _ _ h
  injection h with h
  subst h
  rfl

/-- The styled insights section renders the `Pain Points` header. -/
theorem htmlInsightsSection_h2 (m : PyDict) (cs : List HChunk)
    (h : htmlInsightsSection m = .ok cs) : chunkH2s cs = ["Pain Points"] := by
  unfold htmlInsightsSection at h
  obtain ⟨xs, h1, h⟩ := except_bind_ok _ _ _ h
  injection h with h
  subst h
  rw [chunkH2s_append]
  rw [chunkH2s_flat_map_nil
        (fun i => [.lit "            <li>", .dyn (pyStr i), .lit "</li>\n"])
        xs (fun q => rfl)]
  rfl

/-- The styled pain section renders no header of its own. -/
theorem htmlPainSection_h2 (m : PyDict) (cs : List HChunk)
    (h : htmlPainSection m = .ok cs) : chunkH2s cs = [] := by
  unfold htmlPainSection at h
  obtain ⟨pains, h1, h⟩ := except_bind_ok _ _ _ h
  exact blocksE_flat_nil chunkH2s htmlPainBlock (fun xs ys => chunkH2s_append xs ys) rfl
    htmlPainBlock_h2 pains cs h

/-- The styled hooks section renders the `Ad-Ready Hooks` header. -/
theorem htmlHooksSection_h2 (m : PyDict) (cs : List HChunk)
    (h : htmlHooksSection m = .ok cs) : chunkH2s cs = ["Ad-Ready Hooks"] := by
  unfold htmlHooksSection at h
  cases hobj : getD m "ad_ready_hooks" (.obj []) with
  | obj fs =>
    rw [hobj] at h
    dsimp only at h
    obtain ⟨blocks, h2, h⟩ := except_bind_ok _ _ _ h
    injection h with h
    subst h
    rw [chunkH2s_append]
    rw [blocksE_flat_nil chunkH2s htmlHookBlock (fun xs ys => chunkH2s_append xs ys) rfl
          htmlHookBlock_h2 fs blocks h2]
    rfl
  | null => rw [hobj] at h; simp at h
  | bool b => rw [hobj] at h; simp at h
  | num n => rw [hobj] at h; simp at h
  | str s => rw [hobj] at h; simp at h
  | arr xs => rw [hobj] at h; simp at h

/-- The styled frameworks section renders the `Body Copy Frameworks`
header. -/
theorem htmlFrameworksSection_h2 (m : PyDict) (cs : List HChunk)
    (h : htmlFrameworksSection m = .ok cs) : chunkH2s cs = ["Body Copy Frameworks"] := by
  unfold htmlFrameworksSection at h
  obtain ⟨fws, h1, h⟩ := except_bind_ok _ _ _ h
  obtain ⟨blocks, h2, h⟩ := except_bind_ok _ _ _ h
  injection h with h
  subst h
  rw [chunkH2s_append]
  rw [blocksE_flat_nil chunkH2s htmlFrameworkBlock (fun xs ys => chunkH2s_append xs ys) rfl
        htmlFrameworkBlock_h2 fws blocks h2]
  rfl

/-- The styled encoding renders exactly the five fixed section headers in
order, for every message map it renders at all. -/
theorem generate_html_chunks_h2 (m : PyDict) (cs : List HChunk)
    (h : generate_html_chunks m = .ok cs) :
    chunkH2s cs = html_section_header_list := by
  unfold generate_html_chunks at h
  obtain ⟨c1, e1, h⟩ := except_bind_ok _ _ _ h
  obtain ⟨c2, e2, h⟩ := except_bind_ok _ _ _ h
  obtain ⟨c3, e3, h⟩ := except_bind_ok _ _ _ h
  obtain ⟨c4, e4, h⟩ := except_bind_ok _ _ _ h
  obtain ⟨c5, e5, h⟩ := except_bind_ok _ _ _ h
  injection h with h
  subst h
  rw [chunkH2s_append, chunkH2s_append, chunkH2s_append, chunkH2s_append, chunkH2s_append]
  rw [htmlHeadChunks_h2 m c1 e1, htmlInsightsSection_h2 m c2 e2, htmlPainSection_h2 m c3 e3,
      htmlHooksSection_h2 m c4 e4, htmlFrameworksSection_h2 m c5 e5]
  rfl

/-- C5 counterexample: already on the empty message map, the prose encoding
renders nine section headers while the styled encoding renders five — the
ordered header lists are not identical. -/
theorem c5_counterexample :
    markdown_section_headers [] = .ok md_section_header_list ∧
    html_section_headers [] = .ok html_section_header_list ∧
    md_section_header_list ≠ html_section_header_list := by
  exact ⟨rfl, rfl, by decide⟩

/-- C5 (amended): whenever both encodings render, the prose encoding's
ordered section headers are exactly the nine fixed ones and the styled
encoding's are exactly the five fixed ones (summary, key insights, pain
points, ad-ready hooks, body-copy frameworks) — an in-order sublist of the
prose list, not an identical list: the styled encoding omits emotional
patterns, awareness stages, calls-to-action and objection handlers. -/
theorem c5_amended (m : PyDict) (mdl htl : List String)
    (h1 : markdown_section_headers m = .ok mdl)
    (h2 : html_section_headers m = .ok htl) :
    mdl = md_section_header_list ∧ htl = html_section_header_list ∧
    htl.Sublist mdl := by
  unfold markdown_section_headers at h1
  unfold html_section_headers at h2
  cases hml : generate_markdown_lines m with
  | error u => rw [hml] at h1; simp [Except.map] at h1
  | ok ls =>
    rw [hml] at h1
    simp only [Except.map] at h1
    injection h1 with h1
    cases hhc : generate_html_chunks m with
    | error u => rw [hhc] at h2; simp [Except.map] at h2
    | ok cs =>
      rw [hhc] at h2
      simp only [Except.map] at h2
      injection h2 with h2
      have e1 : mdl = md_section_header_list := by
        rw [← h1, generate_markdown_lines_h m ls hml]
      have e2 : htl = html_section_header_list := by
        rw [← h2, generate_html_chunks_h2 m cs hhc]
      refine ⟨e1, e2, ?_⟩
      rw [e1, e2]
      decide

/-- Witness for C5 (amended) at a concrete message map. -/
theorem c5_amended_witness :
    markdown_section_headers [("generated_at", .str "now")] = .ok md_section_header_list ∧
    html_section_headers [("generated_at", .str "now")] = .ok html_section_header_list ∧
    html_section_header_list.Sublist md_section_header_list := by
  have h1 : markdown_section_headers [("generated_at", .str "now")] =
      .ok md_section_header_list := rfl
  have h2 : html_section_headers [("generated_at", .str "now")] =
      .ok html_section_header_list := rfl
  obtain ⟨-, -, hs⟩ := c5_amended [("generated_at", .str "now")] _ _ h1 h2
  exact ⟨h1, h2, hs⟩

end Miner
